import Mathlib

/-!
Verification of the FB BUS connector core: a shallow embedding of the frame
codec (`clients/pjon.py`), the pairing state machine (`pairing/apiv1.py`) and
the orchestrator (`connector.py`), with theorems settling the specification
claims about them.

Machine integers are modelled as `Nat` with explicit masks where the Python
code masks; byte strings and Python lists are `List Nat`; `uuid.UUID` values
are modelled as `Nat`; wall-clock instants (`time.time()`) as `ℤ` (integer seconds).
-/

namespace FbBus

/-- Terminator byte appended to every frame (`PacketContent.TERMINATOR`, `0x24`). -/
def TERMINATOR : Nat := 0x24

/-- Protocol version byte for V1 (`ProtocolVersion.V1.value`). -/
def PROTOCOL_V1 : Nat := 0x01

/-- Modelled from the spec: the `types` module defining the `ProtocolVersion`
enum is not under `src/`.  §6: "Payload byte 0: protocol version. The only
defined value is `0x01`".  `ProtocolVersion.has_value` tests membership. -/
def protocolVersionHasValue (b : Nat) : Bool := b == PROTOCOL_V1

/-- Modelled from the spec: the `types` module defining the `Packet` enum is
not under `src/`.  §6 lists the defined packet kinds `0x01`-`0x04`, `0x21`,
`0x22`, `0x31`, `0x41` and the optional `PUB_SUB_*` block `0x51-5n` (taken
here as `0x51`-`0x5F`).  `Packet.has_value` tests membership. -/
def packetHasValue (b : Nat) : Bool :=
  b == 0x01 || b == 0x02 || b == 0x03 || b == 0x04 || b == 0x21 || b == 0x22 ||
    b == 0x31 || b == 0x41 || (0x51 ≤ b && b ≤ 0x5F)

/-- Reflected CCITT polynomial, the `poly` default of `PjonClient.__crc16`. -/
def CRC_POLY : Nat := 0x8408

/-- Body of the inner `for _ in range(0, 8)` iteration of `PjonClient.__crc16`:
`if (crc & 0x0001) ^ (cur_byte & 0x0001): crc = (crc >> 1) ^ poly else crc >>= 1`. -/
def crcBitStep (crc cur : Nat) : Nat :=
  if (crc &&& 0x0001) ^^^ (cur &&& 0x0001) ≠ 0 then (crc >>> 1) ^^^ CRC_POLY
  else crc >>> 1

/-- The inner loop of `__crc16` with `n` iterations left; `cur_byte >>= 1`
after every round. -/
def crcByteLoop : Nat → Nat → Nat → Nat
  | 0, crc, _ => crc
  | n + 1, crc, cur => crcByteLoop n (crcBitStep crc cur) (cur >>> 1)

/-- One outer-loop iteration of `__crc16` (one input byte, `cur_byte = 0xFF & byte`). -/
def crc16Body (crc byte : Nat) : Nat := crcByteLoop 8 crc (0xFF &&& byte)

/-- `PjonClient.__crc16`: seed `0xFFFF`, per-byte inner loop, then
`crc = ~crc & 0xFFFF`, then `crc = (crc << 8) | ((crc >> 8) & 0xFF)`, and
`return crc & 0xFFFF`.  On a non-negative Python int, `~crc & 0xFFFF` equals
`0xFFFF - crc % 0x10000`. -/
def crc16 (calculate_data : List Nat) : Nat :=
  let c := calculate_data.foldl crc16Body 0xFFFF
  let c := 0xFFFF - c % 0x10000
  let c := (c <<< 8) ||| ((c >>> 8) &&& 0xFF)
  c &&& 0xFFFF

/-- One bit step of the CRC as the spec words it (§4.1/§6 of the spec): the
state is shifted right and xored with the reflected polynomial `0x8408` when
the incoming data bit differs from the low state bit. -/
def crcSpecStep (crc : Nat) (bit : Bool) : Nat :=
  if crc.testBit 0 == bit then crc >>> 1 else (crc >>> 1) ^^^ 0x8408

/-- The bits of one input byte, least-significant first. -/
def byteBitsLSB (b : Nat) : List Bool := (List.range 8).map fun i => b.testBit i

/-- The reference CRC-16 definition following the spec's words (claim C6):
"starting from seed `0xFFFF`, process each input byte bit by bit
least-significant-bit first with reflected polynomial `0x8408`, then
complement the 16-bit result, then swap its two bytes."  The complement of a
16-bit value `r` is `0xFFFF - r`; swapping the bytes of a 16-bit value `v`
yields `(v % 0x100) * 0x100 + v / 0x100`. -/
def crc16Reference (data : List Nat) : Nat :=
  let r := data.foldl (fun crc b => (byteBitsLSB b).foldl crcSpecStep crc) 0xFFFF
  let inv := 0xFFFF - r
  (inv % 0x100) * 0x100 + inv / 0x100

/-- The frame assembled by `PjonClient.send_packet`: the CRC of the payload is
computed first, then `crc16 >> 8`, `crc16 & 0xFF` and the terminator are
appended to the payload list, and the result is handed to `self.send`. -/
def sendPacketFrame (payload : List Nat) : List Nat :=
  payload ++ [crc16 payload >>> 8, crc16 payload &&& 0xFF, TERMINATOR]

/-- `PjonClient.broadcast_packet` delegates to `send_packet` with the
broadcast address, so it assembles the same frame from the same payload. -/
def broadcastPacketFrame (payload : List Nat) : List Nat := sendPacketFrame payload

/-- Python list indexing `l[i]`: non-negative indices in range, negative
indices wrap once from the end; anything else raises `IndexError`, modelled
as `Except.error ()`. -/
def pyIdx (l : List Nat) (i : Int) : Except Unit Nat :=
  if 0 ≤ i then
    if h : i.toNat < l.length then .ok (l.get ⟨i.toNat, h⟩) else .error ()
  else
    let j := (l.length : Int) + i
    if 0 ≤ j then
      if h : j.toNat < l.length then .ok (l.get ⟨j.toNat, h⟩) else .error ()
    else .error ()

/-- Python slice `l[0:k]` (possibly negative `k`): clamps, never raises. -/
def pySlice0 (l : List Nat) (k : Int) : List Nat :=
  l.take (if 0 ≤ k then k.toNat else ((l.length : Int) + k).toNat)

/-- `PjonClient.receive`.  `raw` is the delivered byte sequence and the
`length` argument of the callback equals its length.  `Except.error ()`
models a raised Python exception (`IndexError`); `.ok none` models a frame
that is logged and dropped; `.ok (some p)` models the payload `p` being
forwarded to `Receiver.on_message`.  The `Packet(int(payload[1]))` lookup
performed before forwarding is modelled by the final index access; its
`ValueError` cannot fire because `payload[1] = raw[1]` was already checked
by `Packet.has_value`. -/
def receive (raw : List Nat) : Except Unit (Option (List Nat)) := do
  let L : Int := raw.length
  let b0 ← pyIdx raw 0
  if protocolVersionHasValue b0 = false then
    return none
  let b1 ← pyIdx raw 1
  if packetHasValue b1 = false then
    return none
  let calculated_crc := crc16 (pySlice0 raw (L - 3))
  let hi ← pyIdx raw (L - 3)
  let lo ← pyIdx raw (L - 2)
  let in_packet_crc := (hi <<< 8) ||| lo
  if calculated_crc ≠ in_packet_crc then
    return none
  let last ← pyIdx raw (-1)
  if last ≠ TERMINATOR then
    return none
  let payload := pySlice0 raw (L - 3)
  let _packet_id ← pyIdx payload 1
  return some payload

/-- The Python byte index that `raw_payload[length - 3]` denotes for a
frame of length at least 2 (for length 2 the index `-1` wraps to `1`). -/
def crcHiIndex (L : Nat) : Nat := if L = 2 then 1 else L - 3

/-- The payload slice `raw_payload[0:(length - 3)]` for a frame of length at
least 2 (for length 2 the negative stop `-1` clamps the slice to one byte). -/
def payloadSlice (raw : List Nat) : List Nat :=
  if raw.length = 2 then raw.take 1 else raw.take (raw.length - 3)


/-- `ApiV1Pairing.__send_data_to_device` mutates the `data` list it is given:
`data.insert(0, ProtocolVersion.V1.value)` prepends the protocol version in
place, and `Client.send_packet` (the PJON client) then appends the two CRC
bytes and the terminator to the same list.  This is the caller-visible value
of the list after the call. -/
def sendDataToDevicePayload (data : List Nat) : List Nat :=
  sendPacketFrame (PROTOCOL_V1 :: data)

/-- The `pjon_cython` send-status constant `PJON_ACK`. -/
def PJON_ACK : Nat := 6

/-- The ack-wait loop at the end of `PjonClient.send_packet` when
`waiting_time > 0`: `t0` is the `time.time()` value stored before the loop
and `polls` is the stream of (clock reading at the `while` condition, send
status returned by `self.loop()`) pairs.  The stream is finite because
wall-clock time eventually exceeds any budget; an exhausted stream models
the deadline having passed. -/
def ackWait (t0 waiting_time : ℤ) : List (ℤ × Nat) → Bool
  | [] => false
  | (t, s) :: rest =>
    if t - t0 ≤ waiting_time then
      (if s = PJON_ACK then true else ackWait t0 waiting_time rest)
    else false

/-- The return value of `PjonClient.send_packet`.  `send_result` models the
outcome of the underlying `self.send` call, which the method never reads
(the ack/nack check is commented out in the source); with
`waiting_time > 0` the ack-wait loop decides the result, otherwise the
method returns `True`. -/
def sendPacketReturn (_send_result : Bool) (waiting_time t0 : ℤ)
    (polls : List (ℤ × Nat)) : Bool :=
  if waiting_time > 0 then ackWait t0 waiting_time polls else true


/-! ### Pairing data model (`pairing/apiv1.py` and the types/records it uses) -/

/-- `RegisterType` (wire values 1-4). -/
inductive RegisterType
  | input
  | output
  | attrib
  | setting
deriving DecidableEq, Repr

/-- Wire value of a register type. -/
def RegisterType.value : RegisterType → Nat
  | .input => 0x01
  | .output => 0x02
  | .attrib => 0x03
  | .setting => 0x04

/-- `DeviceDataType`; only `UNKNOWN` ("not yet enumerated") is distinguished
by the pairing logic. -/
inductive DeviceDataType
  | unknown
  | boolean
  | uint8
  | uint16
  | uint32
  | int8
  | int16
  | int32
  | float
  | string
  | enum
  | button
  | switch
  | datetime
deriving DecidableEq, Repr

/-- `PairingCommand` (wire values 1-4). -/
inductive PairingCommand
  | search
  | writeAddress
  | provideRegisterStructure
  | pairingFinished
deriving DecidableEq, Repr

/-- Wire value of a pairing command. -/
def PairingCommand.value : PairingCommand → Nat
  | .search => 0x01
  | .writeAddress => 0x02
  | .provideRegisterStructure => 0x03
  | .pairingFinished => 0x04

/-- `Packet.DISCOVER.value` (§6). -/
def PACKET_DISCOVER : Nat := 0x04

/-- `ConnectionState`. -/
inductive ConnectionState
  | unknown
  | init
  | pairing
  | ready
  | lost
  | stopped
deriving DecidableEq, Repr

def MAX_SEARCHING_ATTEMPTS : Nat := 5

def MAX_TRANSMIT_ATTEMPTS : Nat := 5

def MAX_TOTAL_TRANSMIT_ATTEMPTS : Nat := 100

def SEARCHING_DELAY : ℤ := 2

def MAX_PAIRING_DELAY : ℤ := 5

def BROADCAST_WAITING_DELAY : ℤ := 2

def ADDRESS_NOT_ASSIGNED : Nat := 255

/-- `PairingDeviceRecord` (registry/records.py is not under `src/`; the
fields are the ones `ApiV1Pairing.append_device` constructs and the pairing
code reads).  UUIDs are `Nat`, strings are byte lists. -/
structure PairingDeviceRecord where
  client_id : Nat
  id : Nat
  address : Nat
  max_packet_length : Nat
  serial_number : List Nat
  hardware_version : List Nat
  hardware_model : List Nat
  hardware_manufacturer : List Nat
  firmware_version : List Nat
  firmware_manufacturer : List Nat
  input_registers_size : Nat
  output_registers_size : Nat
  attributes_registers_size : Nat
  settings_registers_size : Nat
  pub_sub_pub_support : Bool
  pub_sub_sub_support : Bool
  max_subscriptions : Nat
  max_subscription_conditions : Nat
  max_subscription_actions : Nat
deriving DecidableEq, Repr

/-- One element of `ApiV1Pairing.__pairing_device_registers`: the four
Pairing*RegisterRecord variants collapsed into one record discriminated by
`type` (the variants expose exactly this interface to apiv1.py). -/
structure PairingRegisterRecord where
  id : Nat
  address : Nat
  data_type : DeviceDataType
  type : RegisterType
  key : Option (List Nat)
  name : Option (List Nat)
  settable : Bool
  queryable : Bool
deriving DecidableEq, Repr

/-- Modelled from the spec: the registry's device record
(registry/records.py is not under `src/`); only the fields the pairing and
connector code touches. -/
structure DeviceRecord where
  id : Nat
  client_id : Nat
  address : Nat
  serial_number : List Nat
  state : ConnectionState
deriving DecidableEq, Repr

/-- Modelled from the spec: a register record held by `RegistersRegistry`
(registry/model.py is not under `src/`). -/
structure RegistryRegisterRecord where
  id : Nat
  device_id : Nat
  address : Nat
  type : RegisterType
  key : Option (List Nat)
  name : Option (List Nat)
  settable : Bool
  queryable : Bool
deriving DecidableEq, Repr

/-- Modelled from the spec: `DevicesRegistry.get_by_id` (§4.3). -/
def get_by_id (registry : List DeviceRecord) (device_id : Nat) : Option DeviceRecord :=
  registry.find? (fun d => d.id == device_id)

/-- Modelled from the spec: `DevicesRegistry.find_free_address` "returns the
smallest free bus address, or None if saturated" (§4.3); §3 makes the range
`[1, 253]` and quantifies over every device held in the registry. -/
def find_free_address (registry : List DeviceRecord) (_client_id : Nat) : Option Nat :=
  ((List.range 254).filter
    (fun a => 1 ≤ a && registry.all (fun d => !(d.address == a)))).head?

/-- Modelled from the spec: `DevicesRegistry.set_state` (§4.3); the change
event is outside this model. -/
def set_state (registry : List DeviceRecord) (device_id : Nat)
    (state : ConnectionState) : List DeviceRecord :=
  registry.map (fun d => if d.id == device_id then { d with state := state } else d)

/-- Modelled from the spec: `RegistersRegistry.get_by_address` (§4.3). -/
def registers_get_by_address (registry : List RegistryRegisterRecord)
    (device_id : Nat) (register_type : RegisterType) (register_address : Nat) :
    Option RegistryRegisterRecord :=
  registry.find? (fun r =>
    r.device_id == device_id && r.type == register_type && r.address == register_address)

/-- The mutable attributes of `ApiV1Pairing`, together with the registries
it reads and one piece of instrumentation.  Python sets are modelled as
lists carrying the set's (arbitrary) iteration order; `set.pop()` takes the
head.  `uuid.uuid4()` draws consecutive values from the `fresh_uuid`
counter.  `sent_frames` records every payload content list handed to the
client (instrumentation only, not a source attribute).  The `client_id`
filter of `enable()` is left at its `None` default (single-client setup), so
every send goes out exactly once. -/
structure PairingState where
  found_devices : List PairingDeviceRecord
  pairing_device : Option PairingDeviceRecord
  pairing_device_registers : List PairingRegisterRecord
  last_request_send_timestamp : ℤ
  waiting_for_packet : Option Nat
  attempts : Nat
  total_attempts : Nat
  pairing_enabled : Bool
  pairing_cmd : PairingCommand
  processing_register_address : Option Nat
  processing_register_type : Option RegisterType
  broadcasting_search_finished : Bool
  finished_cmd : List PairingCommand
  devices_registry : List DeviceRecord
  registers_registry : List RegistryRegisterRecord
  fresh_uuid : Nat
  sent_frames : List (List Nat)
deriving DecidableEq, Repr

/-- `ApiV1Pairing.__reset_device_pointers`. -/
def reset_device_pointers (s : PairingState) : PairingState :=
  { s with pairing_device := none, pairing_device_registers := [],
           pairing_cmd := .writeAddress, waiting_for_packet := none,
           attempts := 0, total_attempts := 0,
           processing_register_address := none, processing_register_type := none,
           finished_cmd := [] }

/-- `ApiV1Pairing.__reset_pointers`. -/
def reset_pointers (s : PairingState) : PairingState :=
  reset_device_pointers
    { s with found_devices := [], last_request_send_timestamp := 0,
             broadcasting_search_finished := false }

/-- `ApiV1Pairing.enable` (with the default `client_id = None`). -/
def enable (s : PairingState) : PairingState :=
  reset_pointers { s with pairing_enabled := true }

/-- `ApiV1Pairing.disable`. -/
def disable (s : PairingState) : PairingState :=
  reset_pointers { s with pairing_enabled := false }

/-- `ApiV1Pairing.append_pairing_cmd` (called by the receiver when the
awaited reply arrives). -/
def append_pairing_cmd (s : PairingState) (command : PairingCommand) : PairingState :=
  { s with finished_cmd := s.finished_cmd ++ [command],
           waiting_for_packet := none, attempts := 0 }

/-- `ApiV1Pairing.append_device` (called by the receiver on a discovery
reply): clears `waiting_for_packet`; keyed by `(client_id, serial_number)`,
an already-known device is returned unchanged, a new one joins the found
set. -/
def append_device (s : PairingState) (d : PairingDeviceRecord) : PairingState :=
  let s := { s with waiting_for_packet := none }
  if s.found_devices.any
      (fun r => r.client_id == d.client_id && r.serial_number == d.serial_number) then s
  else { s with found_devices := s.found_devices ++ [d] }

/-- The shared body of `append_input_register` / `append_output_register` /
`append_attribute` / `append_setting`: remove the first record carrying the
same id, then add the new one. -/
def append_pairing_register (s : PairingState) (r : PairingRegisterRecord) : PairingState :=
  { s with pairing_device_registers :=
      (s.pairing_device_registers.eraseP (fun x => x.id == r.id)) ++ [r] }

/-- `ApiV1Pairing.__has_registers_to_init`. -/
def has_registers_to_init (s : PairingState) : Bool :=
  s.pairing_device_registers.any (fun r => r.data_type == .unknown)

/-- `ApiV1Pairing.move_to_next_register_for_init`: three passes over the
register set in iteration order - first any `UNKNOWN` register of kind
INPUT or OUTPUT, then ATTRIBUTE, then SETTING. -/
def move_to_next_register_for_init (s : PairingState) : PairingState × Bool :=
  let s := { s with processing_register_type := none, processing_register_address := none }
  if has_registers_to_init s then
    match s.pairing_device_registers.find?
        (fun r => r.data_type == .unknown && (r.type == .input || r.type == .output)) with
    | some r =>
        ({ s with processing_register_type := some r.type,
                  processing_register_address := some r.address,
                  waiting_for_packet := none, attempts := 0 }, true)
    | none =>
        match s.pairing_device_registers.find?
            (fun r => r.data_type == .unknown && r.type == .attrib) with
        | some r =>
            ({ s with processing_register_type := some RegisterType.attrib,
                      processing_register_address := some r.address,
                      waiting_for_packet := none, attempts := 0 }, true)
        | none =>
            match s.pairing_device_registers.find?
                (fun r => r.data_type == .unknown && r.type == .setting) with
            | some r =>
                ({ s with processing_register_type := some RegisterType.setting,
                          processing_register_address := some r.address,
                          waiting_for_packet := none, attempts := 0 }, true)
            | none => (s, false)
  else (s, false)

/-- `ApiV1Pairing.__move_to_next_cmd`. -/
def move_to_next_cmd (s : PairingState) : PairingState :=
  if PairingCommand.writeAddress ∉ s.finished_cmd then
    { s with pairing_cmd := .writeAddress }
  else if PairingCommand.provideRegisterStructure ∉ s.finished_cmd
      ∧ has_registers_to_init s = true then
    let s := (move_to_next_register_for_init s).1
    { s with pairing_cmd := .provideRegisterStructure }
  else if PairingCommand.pairingFinished ∉ s.finished_cmd then
    { s with pairing_cmd := .pairingFinished }
  else s

/-- The `DISCOVER`/`SEARCH` broadcast content list. -/
def searchFrame : List Nat := [PROTOCOL_V1, PACKET_DISCOVER, PairingCommand.search.value]

/-- `ApiV1Pairing.__broadcast_search_devices_handler`. -/
def broadcast_search_devices_handler (now : ℤ) (s : PairingState) : PairingState :=
  { s with waiting_for_packet := some PACKET_DISCOVER,
           attempts := s.attempts + 1,
           total_attempts := s.total_attempts + 1,
           last_request_send_timestamp := now,
           sent_frames := s.sent_frames ++ [searchFrame] }

/-- `ApiV1Pairing.__broadcast_write_address_handler`. -/
def broadcast_write_address_handler (now : ℤ) (device : PairingDeviceRecord)
    (s : PairingState) : PairingState :=
  { s with waiting_for_packet := some PACKET_DISCOVER,
           attempts := s.attempts + 1,
           total_attempts := s.total_attempts + 1,
           last_request_send_timestamp := now,
           sent_frames := s.sent_frames
             ++ [[PROTOCOL_V1, PACKET_DISCOVER, PairingCommand.writeAddress.value,
                  device.address, device.serial_number.length] ++ device.serial_number] }

/-- `ApiV1Pairing.__send_data_to_device`: bump the counters, prepend the
protocol version, send.  The PJON client's `send_packet` at the default
`waiting_time = 0` returns `True` unconditionally (claim C5), so the
`result is False` reset branch is dead in a single-client setup. -/
def send_data_to_device (now : ℤ) (data : List Nat) (s : PairingState) : PairingState :=
  let s := { s with waiting_for_packet := some PACKET_DISCOVER,
                    attempts := s.attempts + 1,
                    total_attempts := s.total_attempts + 1,
                    last_request_send_timestamp := now,
                    sent_frames := s.sent_frames ++ [PROTOCOL_V1 :: data] }
  let result := true
  if result = false then
    { s with waiting_for_packet := none, attempts := 0,
             last_request_send_timestamp := now }
  else s

/-- `ApiV1Pairing.__send_finalize_pairing_handler` (the device argument only
selects the destination address, which frames do not record here). -/
def send_finalize_pairing_handler (now : ℤ) (_device : PairingDeviceRecord)
    (s : PairingState) : PairingState :=
  send_data_to_device now [PACKET_DISCOVER, PairingCommand.pairingFinished.value] s

/-- `ApiV1Pairing.__send_provide_register_structure_handler`. -/
def send_provide_register_structure_handler (now : ℤ) (_device : PairingDeviceRecord)
    (s : PairingState) : PairingState :=
  match s.processing_register_address, s.processing_register_type with
  | some addr, some t =>
      send_data_to_device now
        [PACKET_DISCOVER, PairingCommand.provideRegisterStructure.value,
         t.value, addr >>> 8, addr &&& 0xFF] s
  | _, _ => { s with waiting_for_packet := none, attempts := 0 }

/-- `ApiV1Pairing.__configure_registers` (INPUT or OUTPUT kind). -/
def configure_registers (device_id : Nat) (registers_size : Nat)
    (registers_type : RegisterType) (s : PairingState) : PairingState :=
  (List.range registers_size).foldl
    (fun s i =>
      match registers_get_by_address s.registers_registry device_id registers_type i with
      | some record =>
          match registers_type with
          | .input =>
              append_pairing_register s
                { id := record.id, address := record.address, data_type := .unknown,
                  type := .input, key := record.key, name := none,
                  settable := false, queryable := false }
          | .output =>
              append_pairing_register s
                { id := record.id, address := record.address, data_type := .unknown,
                  type := .output, key := record.key, name := none,
                  settable := false, queryable := false }
          | _ => s
      | none =>
          match registers_type with
          | .input =>
              append_pairing_register { s with fresh_uuid := s.fresh_uuid + 1 }
                { id := s.fresh_uuid, address := i, data_type := .unknown,
                  type := .input, key := none, name := none,
                  settable := false, queryable := false }
          | .output =>
              append_pairing_register { s with fresh_uuid := s.fresh_uuid + 1 }
                { id := s.fresh_uuid, address := i, data_type := .unknown,
                  type := .output, key := none, name := none,
                  settable := false, queryable := false }
          | _ => s) s

/-- `ApiV1Pairing.__configure_attributes`. -/
def configure_attributes (device_id : Nat) (attributes_size : Nat)
    (s : PairingState) : PairingState :=
  (List.range attributes_size).foldl
    (fun s i =>
      match registers_get_by_address s.registers_registry device_id .attrib i with
      | some record =>
          if record.type = .attrib then
            append_pairing_register s
              { id := record.id, address := record.address, data_type := .unknown,
                type := .attrib, key := record.key, name := record.name,
                settable := record.settable, queryable := record.queryable }
          else s
      | none =>
          append_pairing_register { s with fresh_uuid := s.fresh_uuid + 1 }
            { id := s.fresh_uuid, address := i, data_type := .unknown,
              type := .attrib, key := none, name := none,
              settable := true, queryable := true }) s

/-- `ApiV1Pairing.__configure_settings` (setting records are always
settable). -/
def configure_settings (device_id : Nat) (settings_size : Nat)
    (s : PairingState) : PairingState :=
  (List.range settings_size).foldl
    (fun s i =>
      match registers_get_by_address s.registers_registry device_id .setting i with
      | some record =>
          if record.type = .setting then
            append_pairing_register s
              { id := record.id, address := record.address, data_type := .unknown,
                type := .setting, key := none, name := record.name,
                settable := true, queryable := false }
          else s
      | none =>
          append_pairing_register { s with fresh_uuid := s.fresh_uuid + 1 }
            { id := s.fresh_uuid, address := i, data_type := .unknown,
              type := .setting, key := none, name := none,
              settable := true, queryable := false }) s

/-- The register/attribute/setting configuration block ending
`discover_device`. -/
def configure_device (d : PairingDeviceRecord) (s : PairingState) : PairingState :=
  let s := configure_registers d.id d.input_registers_size .input s
  let s := configure_registers d.id d.output_registers_size .output s
  let s := configure_attributes d.id d.attributes_registers_size s
  let s := configure_settings d.id d.settings_registers_size s
  s

/-- Fuel-driven body of `discover_device`.  `discover_device` always calls
it with fuel `found_devices.length + 1` and every recursive call pops one
found device, so the fuel-exhausted case is unreachable. -/
def discoverFuel : Nat → PairingState → PairingState
  | 0, s => s
  | fuel + 1, s =>
    let s1 := reset_device_pointers s
    match s1.found_devices with
    | [] => disable s1
    | d :: rest =>
      let s2 : PairingState :=
        { s1 with pairing_device := some d, found_devices := rest,
                  attempts := 0, total_attempts := 0 }
      match get_by_id s2.devices_registry d.id with
      | none =>
          match find_free_address s2.devices_registry d.client_id with
          | none => discoverFuel fuel s2
          | some free_address =>
              let d' := { d with address := free_address }
              configure_device d' { s2 with pairing_device := some d' }
      | some device_record =>
          if device_record.address = ADDRESS_NOT_ASSIGNED then
            match find_free_address s2.devices_registry d.client_id with
            | none => discoverFuel fuel s2
            | some free_address =>
                let d' := { d with address := free_address }
                let s3 := { s2 with
                  pairing_device := some d'
                  devices_registry :=
                    set_state s2.devices_registry device_record.id ConnectionState.pairing }
                configure_device d' s3
          else
            let d' := { d with address := device_record.address }
            let s3 := { s2 with
              pairing_device := some d'
              devices_registry :=
                set_state s2.devices_registry device_record.id ConnectionState.pairing }
            configure_device d' s3

/-- `ApiV1Pairing.discover_device`: reset the per-device pointers, pop the
next found device (`set.pop()`, modelled as the list head), resolve its bus
address against the registry and build its register skeletons; with no
device left, disable pairing.  Recurses to the next found device when no
free address exists (the fuel bounds that recursion). -/
def discover_device (s : PairingState) : PairingState :=
  discoverFuel (s.found_devices.length + 1) s

/-- `ApiV1Pairing.loop`, one tick at wall-clock instant `now`.  The source
does not return after the total-attempts guard calls `disable()`, so the
same tick continues into the freshly reset search branch. -/
def pairingLoop (now : ℤ) (s : PairingState) : PairingState :=
  if s.pairing_enabled = false then s
  else
    let s := if s.total_attempts ≥ MAX_TOTAL_TRANSMIT_ATTEMPTS then disable s else s
    if s.broadcasting_search_finished = false then
      if s.attempts < MAX_SEARCHING_ATTEMPTS then
        if s.waiting_for_packet = none ∨ s.last_request_send_timestamp = 0
            ∨ (s.waiting_for_packet ≠ none
               ∧ now - s.last_request_send_timestamp ≥ SEARCHING_DELAY) then
          broadcast_search_devices_handler now s
        else s
      else
        discover_device { s with broadcasting_search_finished := true }
    else
      match s.pairing_device with
      | none => s
      | some device =>
          if s.attempts ≥ MAX_TRANSMIT_ATTEMPTS
              ∨ now - s.last_request_send_timestamp ≥ MAX_PAIRING_DELAY then
            discover_device s
          else if s.waiting_for_packet ≠ none then s
          else
            let s := move_to_next_cmd s
            let s := if s.pairing_cmd = .writeAddress then
                       broadcast_write_address_handler now device s else s
            let s := if s.pairing_cmd = .provideRegisterStructure then
                       send_provide_register_structure_handler now device s else s
            let s := if s.pairing_cmd = .pairingFinished then
                       send_finalize_pairing_handler now device s else s
            s

/-- The external events driving the pairing subsystem: a `loop()` tick at
time `now`, a discovery reply (the receiver calls `append_device`), and a
matching command reply (the receiver calls `append_pairing_cmd`). -/
inductive PairingEvent
  | tick (now : ℤ)
  | deviceReply (d : PairingDeviceRecord)
  | cmdReply (c : PairingCommand)
deriving DecidableEq

/-- One event applied to the pairing state. -/
def pairingStep (s : PairingState) : PairingEvent → PairingState
  | .tick now => pairingLoop now s
  | .deviceReply d => append_device s d
  | .cmdReply c => append_pairing_cmd s c

/-- A run of the pairing subsystem over a list of events. -/
def pairingRun (s : PairingState) (events : List PairingEvent) : PairingState :=
  events.foldl pairingStep s

/-- The pairing state right after `enable()`: every pointer reset, no frame
sent yet; the registries are whatever the host prepared. -/
def enableState (devices : List DeviceRecord)
    (registers : List RegistryRegisterRecord) : PairingState :=
  enable
    { found_devices := [], pairing_device := none, pairing_device_registers := [],
      last_request_send_timestamp := 0, waiting_for_packet := none, attempts := 0,
      total_attempts := 0, pairing_enabled := false, pairing_cmd := .writeAddress,
      processing_register_address := none, processing_register_type := none,
      broadcasting_search_finished := false, finished_cmd := [],
      devices_registry := devices, registers_registry := registers,
      fresh_uuid := 0, sent_frames := [] }

/-- Number of `DISCOVER`/`SEARCH` broadcasts among the recorded frames. -/
def countSearchFrames (frames : List (List Nat)) : Nat :=
  (frames.filter (fun f => f == searchFrame)).length

/-- A concrete found-device record used by witnesses and counterexamples:
serial "ABC", no registers. -/
def sampleDevice : PairingDeviceRecord :=
  { client_id := 0, id := 1, address := 255, max_packet_length := 64,
    serial_number := [65, 66, 67], hardware_version := [], hardware_model := [],
    hardware_manufacturer := [], firmware_version := [], firmware_manufacturer := [],
    input_registers_size := 0, output_registers_size := 0,
    attributes_registers_size := 0, settings_registers_size := 0,
    pub_sub_pub_support := false, pub_sub_sub_support := false,
    max_subscriptions := 0, max_subscription_conditions := 0,
    max_subscription_actions := 0 }


/-- Registers whose set-iteration order puts an UNKNOWN OUTPUT register at
address 7 ahead of an UNKNOWN INPUT register at address 3 (a Python set may
iterate records in any order). -/
def c4Registers : List PairingRegisterRecord :=
  [{ id := 10, address := 7, data_type := .unknown, type := .output,
     key := none, name := none, settable := false, queryable := false },
   { id := 11, address := 3, data_type := .unknown, type := .input,
     key := none, name := none, settable := false, queryable := false }]

/-- A pairing state mid-enrollment holding `c4Registers`. -/
def c4State : PairingState :=
  { enableState [] [] with pairing_device_registers := c4Registers }

/-- A pairing state whose only UNKNOWN register is an attribute. -/
def c4AttribState : PairingState :=
  { enableState [] [] with pairing_device_registers :=
      [{ id := 12, address := 0, data_type := .unknown, type := .attrib,
         key := none, name := none, settable := true, queryable := true }] }

/-- The event sequence driving the claim-C2 counterexample run: one
discovery reply, then search ticks spaced two seconds apart until the five
search attempts are used up. -/
def c2Events : List PairingEvent :=
  [.deviceReply sampleDevice, .tick 1, .tick 3, .tick 5, .tick 7, .tick 9]

/-- The pairing state after the five search broadcasts. -/
def c2Run1 : PairingState := pairingRun (enableState [] []) c2Events

/-- One further tick: the search phase ends and `discover_device` pops the
found device, zeroing both attempt counters. -/
def c2Run2 : PairingState :=
  pairingRun (enableState [] []) (c2Events ++ [PairingEvent.tick 11])

/-- One enrollment tick after that: a sixth frame goes out. -/
def c2Run3 : PairingState :=
  pairingRun (enableState [] [])
    (c2Events ++ [PairingEvent.tick 11, PairingEvent.tick 12])

/-- An enabled pairing state whose total-attempts counter has reached the
global cap. -/
def c2CapState : PairingState :=
  { enableState [] [] with total_attempts := MAX_TOTAL_TRANSMIT_ATTEMPTS }

/-- A mid-enrollment state with the per-command attempts counter exhausted
and one further found device queued: the next tick must drop the current
pairing device and pop the queued one. -/
def c7DropState : PairingState :=
  { enableState [] [] with
    broadcasting_search_finished := true
    pairing_device := some sampleDevice
    attempts := MAX_TRANSMIT_ATTEMPTS
    found_devices := [sampleDevice] }

/-- A mid-enrollment state well inside the retry budget: the next tick
keeps the current pairing device. -/
def c7KeepState : PairingState :=
  { enableState [] [] with
    broadcasting_search_finished := true
    pairing_device := some sampleDevice
    last_request_send_timestamp := 1 }

/-- A searching state still awaiting the reply to a broadcast sent at
instant 1: a tick before instant 3 must not broadcast again. -/
def c8WaitState : PairingState :=
  { enableState [] [] with
    waiting_for_packet := some PACKET_DISCOVER
    last_request_send_timestamp := 1
    attempts := 1
    total_attempts := 1 }

/-- A searching state whose five search attempts are used up: the next tick
ends the search phase. -/
def c8DoneState : PairingState :=
  { enableState [] [] with
    attempts := MAX_SEARCHING_ATTEMPTS
    total_attempts := MAX_SEARCHING_ATTEMPTS }

/-! ### Connector (`connector.py`) -/

/-- `FbBusConnector`'s own state: the stopped flag and the
packets-to-be-sent gauge, plus the observable state of its collaborators -
the receiver and consumer queues (abstract items; their emptiness is what
`is_empty` reports), the pairing helper's enabled flag and the device
registry. -/
structure ConnectorState where
  stopped : Bool
  packets_to_be_sent : Nat
  receiver_queue : List Nat
  consumer_queue : List Nat
  pairing_enabled : Bool
  devices_registry : List DeviceRecord
deriving DecidableEq, Repr

/-- `FbBusConnector.has_unfinished_tasks`:
`not receiver.is_empty() or not consumer.is_empty()`. -/
def has_unfinished_tasks (s : ConnectorState) : Bool :=
  !s.receiver_queue.isEmpty || !s.consumer_queue.isEmpty

/-- Which collaborator loops one `FbBusConnector.loop` tick invoked. -/
structure LoopCalls where
  receiver : Bool
  consumer : Bool
  pairing : Bool
  publisher : Bool
  client : Bool
deriving DecidableEq, Repr

/-- `FbBusConnector.loop`.  The collaborators' loop bodies live outside
`src/`, so they are abstracted as state transformers handed in; the result
also records which of them the tick invoked.  `clientLoop` returns the new
packets-to-be-sent gauge. -/
def connectorLoop (receiverLoop consumerLoop pairingLoopF publisherLoop :
      ConnectorState → ConnectorState)
    (clientLoop : ConnectorState → ConnectorState × Nat)
    (s : ConnectorState) : ConnectorState × LoopCalls :=
  if s.stopped = true ∧ has_unfinished_tasks s = false then
    (s, ⟨false, false, false, false, false⟩)
  else
    let s := receiverLoop s
    let s := consumerLoop s
    if s.stopped = true then
      (s, ⟨true, true, false, false, false⟩)
    else
      let ran_pairing := s.pairing_enabled
      let ran_publisher := !s.pairing_enabled && (s.packets_to_be_sent == 0)
      let s := if s.pairing_enabled = true then pairingLoopF s
               else if s.packets_to_be_sent = 0 then publisherLoop s else s
      let r := clientLoop s
      ({ r.1 with packets_to_be_sent := r.2 },
       ⟨true, true, ran_pairing, ran_publisher, true⟩)

/-- `FbBusConnector.stop`: set every device in the registry to state
UNKNOWN, then mark the connector stopped. -/
def connectorStop (s : ConnectorState) : ConnectorState :=
  { s with
    devices_registry := s.devices_registry.map (fun d => { d with state := .unknown })
    stopped := true }

/-- A stopped connector with one queued inbound item. -/
def c9BusyState : ConnectorState :=
  { stopped := true, packets_to_be_sent := 0, receiver_queue := [0],
    consumer_queue := [], pairing_enabled := false,
    devices_registry := [{ id := 1, client_id := 0, address := 1,
                           serial_number := [65], state := .ready }] }

/-- The same connector with both queues drained. -/
def c9IdleState : ConnectorState :=
  { c9BusyState with receiver_queue := [] }

/-! ### CRC equivalence lemmas (claim C6) -/

theorem crcBitStep_eq (crc cur : Nat) :
    crcBitStep crc cur = crcSpecStep crc (cur.testBit 0) := by
  unfold crcBitStep crcSpecStep
  rw [Nat.and_one_is_mod, Nat.and_one_is_mod, Nat.testBit_zero, Nat.testBit_zero]
  rcases Nat.mod_two_eq_zero_or_one crc with h1 | h1 <;>
    rcases Nat.mod_two_eq_zero_or_one cur with h2 | h2 <;>
      rw [h1, h2] <;> norm_num [CRC_POLY]

theorem crcByteLoop_spec (n crc cur : Nat) :
    crcByteLoop n crc cur
      = (((List.range n).map fun i => cur.testBit i).foldl crcSpecStep crc) := by
  induction n generalizing crc cur with
  | zero => simp [crcByteLoop]
  | succ n ih =>
      rw [List.range_succ_eq_map]
      simp only [List.map_cons, List.map_map, List.foldl_cons]
      rw [crcByteLoop, ih (crcBitStep crc cur) (cur >>> 1), crcBitStep_eq]
      congr 1
      apply List.map_congr_left
      intro a _
      simp [Nat.testBit_shiftRight, Nat.add_comm, Function.comp]

theorem crc16Body_eq (crc b : Nat) :
    crc16Body crc b = (byteBitsLSB b).foldl crcSpecStep crc := by
  rw [crc16Body, crcByteLoop_spec, byteBitsLSB]
  congr 1
  apply List.map_congr_left
  intro i hi
  have h8 : i < 8 := List.mem_range.mp hi
  have h255 : Nat.testBit 255 i = true := by
    have hall : ∀ j, j < 8 → Nat.testBit 255 j = true := by decide
    exact hall i h8
  simp [Nat.testBit_and, h255]

theorem crc16_fold_eq (data : List Nat) (crc : Nat) :
    data.foldl crc16Body crc
      = data.foldl (fun c b => (byteBitsLSB b).foldl crcSpecStep c) crc := by
  induction data generalizing crc with
  | nil => rfl
  | cons b rest ih => simp only [List.foldl_cons, crc16Body_eq, ih]

theorem crcSpecStep_lt (crc : Nat) (bit : Bool) (h : crc < 2 ^ 16) :
    crcSpecStep crc bit < 2 ^ 16 := by
  have hs : crc >>> 1 < 2 ^ 16 :=
    lt_of_le_of_lt (by rw [Nat.shiftRight_eq_div_pow]; exact Nat.div_le_self _ _) h
  unfold crcSpecStep
  split
  · exact hs
  · exact Nat.xor_lt_two_pow hs (by norm_num)

theorem crcSpecFold_lt (bits : List Bool) (crc : Nat) (h : crc < 2 ^ 16) :
    bits.foldl crcSpecStep crc < 2 ^ 16 := by
  induction bits generalizing crc with
  | nil => exact h
  | cons b rest ih => exact ih _ (crcSpecStep_lt _ _ h)

theorem crc16_fold_lt (data : List Nat) (crc : Nat) (h : crc < 2 ^ 16) :
    data.foldl (fun c b => (byteBitsLSB b).foldl crcSpecStep c) crc < 2 ^ 16 := by
  induction data generalizing crc with
  | nil => exact h
  | cons b rest ih => exact ih _ (crcSpecFold_lt _ _ h)

theorem crc_swap_eq (v : Nat) (h : v < 2 ^ 16) :
    ((v <<< 8) ||| ((v >>> 8) &&& 0xFF)) &&& 0xFFFF
      = (v % 0x100) * 0x100 + v / 0x100 := by
  have h1 : v >>> 8 = v / 256 := by
    rw [Nat.shiftRight_eq_div_pow]
  have h2 : (v / 256) &&& 0xFF = v / 256 % 256 := by
    rw [show (0xFF : Nat) = 2 ^ 8 - 1 by norm_num, Nat.and_pow_two_sub_one_eq_mod]
  have hdivlt : v / 256 % 256 < 2 ^ 8 := Nat.mod_lt _ (by norm_num)
  have h3 : (v <<< 8) ||| (v / 256 % 256) = 2 ^ 8 * v + v / 256 % 256 := by
    rw [Nat.shiftLeft_eq, Nat.mul_comm]
    exact (Nat.mul_add_lt_is_or hdivlt v).symm
  have h4 : (2 ^ 8 * v + v / 256 % 256) &&& 0xFFFF
      = (2 ^ 8 * v + v / 256 % 256) % 2 ^ 16 := by
    rw [show (0xFFFF : Nat) = 2 ^ 16 - 1 by norm_num, Nat.and_pow_two_sub_one_eq_mod]
  rw [h1, h2, h3, h4]
  have hq : v / 256 < 256 := Nat.div_lt_of_lt_mul (by omega)
  have hsplit : 2 ^ 8 * v + v / 256 % 256
      = 2 ^ 16 * (v / 256) + ((v % 256) * 256 + v / 256) := by
    have := Nat.div_add_mod v 256
    omega
  rw [hsplit, Nat.mul_add_mod]
  exact Nat.mod_eq_of_lt (by omega)

theorem crc16_eq_reference (data : List Nat) : crc16 data = crc16Reference data := by
  have hcode : crc16 data
      = ((0xFFFF - (data.foldl crc16Body 0xFFFF) % 0x10000) <<< 8 |||
          (((0xFFFF - (data.foldl crc16Body 0xFFFF) % 0x10000) >>> 8) &&& 0xFF))
        &&& 0xFFFF := rfl
  have href : crc16Reference data
      = ((0xFFFF - data.foldl (fun c b => (byteBitsLSB b).foldl crcSpecStep c) 0xFFFF) % 0x100)
          * 0x100
        + (0xFFFF - data.foldl (fun c b => (byteBitsLSB b).foldl crcSpecStep c) 0xFFFF)
          / 0x100 := rfl
  rw [hcode, href, crc16_fold_eq]
  have hlt : data.foldl (fun c b => (byteBitsLSB b).foldl crcSpecStep c) 0xFFFF < 2 ^ 16 :=
    crc16_fold_lt data 0xFFFF (by norm_num)
  set r := data.foldl (fun c b => (byteBitsLSB b).foldl crcSpecStep c) 0xFFFF with hr
  have hmod : r % 0x10000 = r := Nat.mod_eq_of_lt (by exact_mod_cast hlt)
  have hinv : 0xFFFF - r < 2 ^ 16 := by omega
  rw [hmod]
  exact crc_swap_eq _ hinv

/-- The CRC produced by `crc16` always fits in 16 bits. -/
theorem crc16_lt (data : List Nat) : crc16 data < 2 ^ 16 := by
  rw [crc16_eq_reference]
  have href : crc16Reference data
      = ((0xFFFF - data.foldl (fun c b => (byteBitsLSB b).foldl crcSpecStep c) 0xFFFF) % 0x100)
          * 0x100
        + (0xFFFF - data.foldl (fun c b => (byteBitsLSB b).foldl crcSpecStep c) 0xFFFF)
          / 0x100 := rfl
  rw [href]
  have h := crc16_fold_lt data 0xFFFF (by norm_num)
  set r := data.foldl (fun c b => (byteBitsLSB b).foldl crcSpecStep c) 0xFFFF
  omega

/-- Recomposing the two CRC bytes that `send_packet` appends yields the CRC. -/
theorem crc16_recompose (data : List Nat) :
    ((crc16 data >>> 8) <<< 8) ||| (crc16 data &&& 0xFF) = crc16 data := by
  have hlt := crc16_lt data
  set x := crc16 data
  have h1 : x &&& 0xFF = x % 256 := by
    rw [show (0xFF : Nat) = 2 ^ 8 - 1 by norm_num, Nat.and_pow_two_sub_one_eq_mod]
  have h2 : (x >>> 8) <<< 8 = 2 ^ 8 * (x / 256) := by
    rw [Nat.shiftRight_eq_div_pow, Nat.shiftLeft_eq, Nat.mul_comm]
  have h3 : x % 256 < 2 ^ 8 := Nat.mod_lt _ (by norm_num)
  rw [h1, h2, ← Nat.mul_add_lt_is_or h3]
  have := Nat.div_add_mod x 256
  omega

/-! ### Python indexing lemmas -/

theorem pyIdx_nat (l : List Nat) (n : Nat) (a : Nat) (h : l[n]? = some a) :
    pyIdx l (n : Int) = .ok a := by
  have hn : n < l.length := by
    by_contra hc
    rw [List.getElem?_eq_none (by omega)] at h
    exact Option.noConfusion h
  have ha : l[n] = a := by
    have := List.getElem?_eq_getElem hn
    rw [this] at h
    exact Option.some.inj h
  unfold pyIdx
  rw [if_pos (by exact_mod_cast Int.ofNat_nonneg n)]
  have ht : (n : Int).toNat = n := Int.toNat_ofNat n
  simp only [ht]
  rw [dif_pos hn]
  simp [List.get_eq_getElem, ha]

theorem pyIdx_neg_one (l : List Nat) (a : Nat) (h : l[l.length - 1]? = some a)
    (hne : l ≠ []) : pyIdx l (-1) = .ok a := by
  have hlen : 0 < l.length := List.length_pos.mpr hne
  have hn : l.length - 1 < l.length := by omega
  have ha : l[l.length - 1] = a := by
    have := List.getElem?_eq_getElem hn
    rw [this] at h
    exact Option.some.inj h
  unfold pyIdx
  rw [if_neg (by omega)]
  have hj : (0 : Int) ≤ (l.length : Int) + (-1) := by omega
  rw [if_pos hj]
  have ht : ((l.length : Int) + (-1)).toNat = l.length - 1 := by omega
  simp only [ht]
  rw [dif_pos hn]
  simp [List.get_eq_getElem, ha]

theorem pySlice0_nat (l : List Nat) (k : Nat) : pySlice0 l (k : Int) = l.take k := by
  unfold pySlice0
  rw [if_pos (by exact_mod_cast Int.ofNat_nonneg k)]
  simp

theorem pyIdx_getD (l : List Nat) (n : Nat) (h : n < l.length) :
    pyIdx l (n : Int) = .ok (l.getD n 0) := by
  apply pyIdx_nat
  rw [List.getElem?_eq_getElem h]
  simp [List.getD, List.getElem?_eq_getElem h]

theorem pyIdx_getD_neg_one (l : List Nat) (h : 1 ≤ l.length) :
    pyIdx l (-1) = .ok (l.getD (l.length - 1) 0) := by
  apply pyIdx_neg_one
  · have hn : l.length - 1 < l.length := by omega
    rw [List.getElem?_eq_getElem hn]
    simp [List.getD, List.getElem?_eq_getElem hn]
  · intro hc
    rw [hc] at h
    simp at h

theorem pyIdx_nat_err (l : List Nat) (n : Nat) (h : l.length ≤ n) :
    pyIdx l (n : Int) = .error () := by
  unfold pyIdx
  rw [if_pos (by exact_mod_cast Int.ofNat_nonneg n)]
  have ht : (n : Int).toNat = n := Int.toNat_ofNat n
  simp only [ht]
  rw [dif_neg (by omega)]

/-! ### Reduction of receive to its four checks -/

theorem receive_eq (raw : List Nat) (h2 : 2 ≤ raw.length) :
    receive raw =
      if protocolVersionHasValue (raw.getD 0 0) = false then .ok none
      else if packetHasValue (raw.getD 1 0) = false then .ok none
      else if crc16 (payloadSlice raw)
          ≠ ((raw.getD (crcHiIndex raw.length) 0 <<< 8) ||| raw.getD (raw.length - 2) 0) then
        .ok none
      else if raw.getD (raw.length - 1) 0 ≠ TERMINATOR then .ok none
      else if raw.length < 5 then .error ()
      else .ok (some (payloadSlice raw)) := by
  have hp0 : pyIdx raw (0 : Int) = .ok (raw.getD 0 0) := by
    have := pyIdx_getD raw 0 (by omega)
    simpa using this
  have hp1 : pyIdx raw (1 : Int) = .ok (raw.getD 1 0) := by
    have := pyIdx_getD raw 1 (by omega)
    simpa using this
  have hp2 : pyIdx raw ((raw.length : Int) - 2) = .ok (raw.getD (raw.length - 2) 0) := by
    have hc : ((raw.length : Int) - 2) = (((raw.length - 2 : Nat)) : Int) := by omega
    rw [hc]
    exact pyIdx_getD raw (raw.length - 2) (by omega)
  have hpneg : pyIdx raw (-1) = .ok (raw.getD (raw.length - 1) 0) :=
    pyIdx_getD_neg_one raw (by omega)
  rcases Nat.lt_or_ge raw.length 3 with hL | hL
  · -- raw.length = 2: the index length - 3 wraps to the last byte
    have hL2 : raw.length = 2 := by omega
    have hp3 : pyIdx raw ((raw.length : Int) - 3) = .ok (raw.getD (crcHiIndex raw.length) 0) := by
      have hc : ((raw.length : Int) - 3) = (-1 : Int) := by omega
      have hhi : crcHiIndex raw.length = raw.length - 1 := by
        unfold crcHiIndex
        rw [if_pos hL2, hL2]
      rw [hc, hpneg, hhi]
    have hslice : pySlice0 raw ((raw.length : Int) - 3) = payloadSlice raw := by
      have hc : ((raw.length : Int) - 3) = (-1 : Int) := by omega
      rw [hc]
      unfold pySlice0 payloadSlice
      rw [if_neg (by omega), if_pos hL2, hL2]
      norm_num
    have hperr : pyIdx (payloadSlice raw) (1 : Int) = .error () := by
      have hPlen : (payloadSlice raw).length = 1 := by
        unfold payloadSlice
        rw [if_pos hL2]
        simp [hL2]
      have := pyIdx_nat_err (payloadSlice raw) 1 (by omega)
      simpa using this
    have h25 : raw.length < 5 := by omega
    simp only [receive, hp0, hp1, hp2, hp3, hpneg, hslice, hperr,
      Bind.bind, Except.bind, pure, Except.pure]
    by_cases hv : protocolVersionHasValue (raw[0]?.getD 0) = false
    · simp [hv]
    · by_cases hk : packetHasValue (raw[1]?.getD 0) = false
      · simp [hv, hk]
      · by_cases hcrc : crc16 (payloadSlice raw)
            = ((raw[crcHiIndex raw.length]?.getD 0 <<< 8) ||| raw[raw.length - 2]?.getD 0)
        · by_cases ht : raw[raw.length - 1]?.getD 0 = TERMINATOR
          · simp [hv, hk, hcrc, ht, h25]
          · simp [hv, hk, hcrc, ht]
        · simp [hv, hk, hcrc]
  · -- raw.length ≥ 3: all indices are plain non-negative offsets
    have hhi : crcHiIndex raw.length = raw.length - 3 := by
      unfold crcHiIndex
      rw [if_neg (by omega)]
    have hp3 : pyIdx raw ((raw.length : Int) - 3) = .ok (raw.getD (crcHiIndex raw.length) 0) := by
      have hc : ((raw.length : Int) - 3) = (((raw.length - 3 : Nat)) : Int) := by omega
      rw [hc, hhi]
      exact pyIdx_getD raw (raw.length - 3) (by omega)
    have hslice : pySlice0 raw ((raw.length : Int) - 3) = payloadSlice raw := by
      have hc : ((raw.length : Int) - 3) = (((raw.length - 3 : Nat)) : Int) := by omega
      rw [hc, pySlice0_nat]
      unfold payloadSlice
      rw [if_neg (by omega)]
    have hPlen : (payloadSlice raw).length = raw.length - 3 := by
      unfold payloadSlice
      rw [if_neg (by omega)]
      simp only [List.length_take]
      omega
    simp only [receive, hp0, hp1, hp2, hp3, hpneg, hslice,
      Bind.bind, Except.bind, pure, Except.pure]
    by_cases hv : protocolVersionHasValue (raw[0]?.getD 0) = false
    · simp [hv]
    · by_cases hk : packetHasValue (raw[1]?.getD 0) = false
      · simp [hv, hk]
      · by_cases hcrc : crc16 (payloadSlice raw)
            = ((raw[crcHiIndex raw.length]?.getD 0 <<< 8) ||| raw[raw.length - 2]?.getD 0)
        · by_cases ht : raw[raw.length - 1]?.getD 0 = TERMINATOR
          · rcases Nat.lt_or_ge raw.length 5 with h5 | h5
            · have hperr : pyIdx (payloadSlice raw) (1 : Int) = .error () := by
                have := pyIdx_nat_err (payloadSlice raw) 1 (by omega)
                simpa using this
              simp [hv, hk, hcrc, ht, h5, hperr, Bind.bind, Except.bind]
            · have h5n : ¬ raw.length < 5 := by omega
              have hpok : pyIdx (payloadSlice raw) (1 : Int)
                  = .ok ((payloadSlice raw).getD 1 0) := by
                have := pyIdx_getD (payloadSlice raw) 1 (by omega)
                simpa using this
              simp [hv, hk, hcrc, ht, hpok, h5n, Bind.bind, Except.bind, pure, Except.pure]
          · simp [hv, hk, hcrc, ht]
        · simp [hv, hk, hcrc]

end FbBus


namespace FbBus

theorem or_shift_eq_add (x y : Nat) (hy : y < 256) : (x <<< 8) ||| y = 256 * x + y := by
  rw [Nat.shiftLeft_eq, Nat.mul_comm]
  exact (Nat.mul_add_lt_is_or (by omega) x).symm

theorem short_frames_fail (raw : List Nat) (h2 : 2 ≤ raw.length) (h5 : raw.length < 5)
    (hbytes : ∀ b ∈ raw, b < 256)
    (hv : protocolVersionHasValue (raw.getD 0 0) = true)
    (hk : packetHasValue (raw.getD 1 0) = true) :
    crc16 (payloadSlice raw)
      ≠ ((raw.getD (crcHiIndex raw.length) 0 <<< 8) ||| raw.getD (raw.length - 2) 0) := by
  rcases raw with _ | ⟨a, raw⟩
  · simp at h2
  rcases raw with _ | ⟨b, raw⟩
  · simp at h2
  have ha : a = 1 := by
    simpa [protocolVersionHasValue, PROTOCOL_V1] using hv
  subst ha
  rcases raw with _ | ⟨c, raw⟩
  · -- length 2: in-packet CRC is read from bytes 1 and 0
    have hb : b < 256 := hbytes b (by simp)
    have hcrc1 : crc16 [1] = 61921 := by decide
    simp only [payloadSlice, crcHiIndex, List.length_cons, List.length_nil]
    norm_num
    rw [hcrc1]
    intro hc
    rw [or_shift_eq_add b 1 (by omega)] at hc
    omega
  rcases raw with _ | ⟨d, raw⟩
  · -- length 3: the payload slice is empty and the CRC of [] is 0
    have hb : b < 256 := hbytes b (by simp)
    have hcrc0 : crc16 [] = 0 := by decide
    simp only [payloadSlice, crcHiIndex, List.length_cons, List.length_nil]
    norm_num
    rw [hcrc0]
    intro hc
    rw [or_shift_eq_add 1 b (by omega)] at hc
    omega
  rcases raw with _ | ⟨e, raw⟩
  · -- length 4: a CRC match would force packet kind byte 0xF1
    have hb : b < 256 := hbytes b (by simp)
    have hc256 : c < 256 := hbytes c (by simp)
    have hcrc1 : crc16 [1] = 61921 := by decide
    have hkb : packetHasValue b = true := by simpa using hk
    simp only [payloadSlice, crcHiIndex, List.length_cons, List.length_nil]
    norm_num
    rw [hcrc1]
    intro hc
    rw [or_shift_eq_add b c (by omega)] at hc
    have hb241 : b = 241 := by omega
    rw [hb241] at hkb
    simp [packetHasValue] at hkb
  · simp only [List.length_cons] at h5
    omega

end FbBus


namespace FbBus

theorem bool_ne_false {b : Bool} (h : ¬ b = false) : b = true := by
  cases b
  · exact absurd rfl h
  · rfl

theorem receive_short_not_some (raw : List Nat) (h : raw.length < 2) (p : List Nat) :
    receive raw ≠ .ok (some p) := by
  rcases raw with _ | ⟨a, raw⟩
  · intro hc
    rw [show receive [] = .error () from rfl] at hc
    exact Except.noConfusion hc
  rcases raw with _ | ⟨b, raw⟩
  · have hp0 : pyIdx [a] (0 : Int) = .ok a := by
      have := pyIdx_getD [a] 0 (by simp)
      simpa using this
    have hp1 : pyIdx [a] (1 : Int) = .error () := by
      have := pyIdx_nat_err [a] 1 (by simp)
      simpa using this
    intro hc
    by_cases hv : protocolVersionHasValue a = false
    · simp only [receive, hp0, hp1, Bind.bind, Except.bind, pure, Except.pure] at hc
      simp [hv] at hc
    · simp only [receive, hp0, hp1, Bind.bind, Except.bind, pure, Except.pure] at hc
      simp [hv] at hc
  · exact absurd h (by simp)

theorem receive_never_raises (raw : List Nat) (h2 : 2 ≤ raw.length)
    (hbytes : ∀ b ∈ raw, b < 256) : ∃ r, receive raw = .ok r := by
  rw [receive_eq raw h2]
  by_cases hv : protocolVersionHasValue (raw.getD 0 0) = false
  · exact ⟨none, by rw [if_pos hv]⟩
  · rw [if_neg hv]
    by_cases hk : packetHasValue (raw.getD 1 0) = false
    · exact ⟨none, by rw [if_pos hk]⟩
    · rw [if_neg hk]
      by_cases hcrc : crc16 (payloadSlice raw)
          = ((raw.getD (crcHiIndex raw.length) 0 <<< 8) ||| raw.getD (raw.length - 2) 0)
      · rw [if_neg (fun hcon => hcon hcrc)]
        by_cases ht : raw.getD (raw.length - 1) 0 = TERMINATOR
        · rw [if_neg (fun hcon => hcon ht)]
          have h5 : ¬ raw.length < 5 := fun h5 =>
            short_frames_fail raw h2 h5 hbytes (bool_ne_false hv) (bool_ne_false hk) hcrc
          rw [if_neg h5]
          exact ⟨some (payloadSlice raw), rfl⟩
        · rw [if_pos ht]
          exact ⟨none, rfl⟩
      · rw [if_pos hcrc]
        exact ⟨none, rfl⟩

theorem receive_some_characterisation (raw p : List Nat)
    (h : receive raw = .ok (some p)) :
    p = payloadSlice raw
    ∧ protocolVersionHasValue (raw.getD 0 0) = true
    ∧ packetHasValue (raw.getD 1 0) = true
    ∧ crc16 p = ((raw.getD (crcHiIndex raw.length) 0 <<< 8) ||| raw.getD (raw.length - 2) 0)
    ∧ raw.getD (raw.length - 1) 0 = TERMINATOR := by
  rcases Nat.lt_or_ge raw.length 2 with hlen | hlen
  · exact absurd h (receive_short_not_some raw hlen p)
  rw [receive_eq raw hlen] at h
  by_cases hv : protocolVersionHasValue (raw.getD 0 0) = false
  · rw [if_pos hv] at h
    exact absurd (Option.noConfusion (Except.ok.inj h)) (fun hc => hc)
  rw [if_neg hv] at h
  by_cases hk : packetHasValue (raw.getD 1 0) = false
  · rw [if_pos hk] at h
    exact absurd (Option.noConfusion (Except.ok.inj h)) (fun hc => hc)
  rw [if_neg hk] at h
  by_cases hcrc : crc16 (payloadSlice raw)
      = ((raw.getD (crcHiIndex raw.length) 0 <<< 8) ||| raw.getD (raw.length - 2) 0)
  · rw [if_neg (fun hcon => hcon hcrc)] at h
    by_cases ht : raw.getD (raw.length - 1) 0 = TERMINATOR
    · rw [if_neg (fun hcon => hcon ht)] at h
      by_cases h5 : raw.length < 5
      · rw [if_pos h5] at h
        exact Except.noConfusion h
      · rw [if_neg h5] at h
        have hp : p = payloadSlice raw := (Option.some.inj (Except.ok.inj h)).symm
        subst hp
        exact ⟨rfl, bool_ne_false hv, bool_ne_false hk, hcrc, ht⟩
    · rw [if_pos ht] at h
      exact absurd (Option.noConfusion (Except.ok.inj h)) (fun hc => hc)
  · rw [if_pos hcrc] at h
    exact absurd (Option.noConfusion (Except.ok.inj h)) (fun hc => hc)

theorem receive_pass_forwards (raw : List Nat) (h2 : 2 ≤ raw.length)
    (hbytes : ∀ b ∈ raw, b < 256)
    (hv : protocolVersionHasValue (raw.getD 0 0) = true)
    (hk : packetHasValue (raw.getD 1 0) = true)
    (hcrc : crc16 (payloadSlice raw)
      = ((raw.getD (crcHiIndex raw.length) 0 <<< 8) ||| raw.getD (raw.length - 2) 0))
    (ht : raw.getD (raw.length - 1) 0 = TERMINATOR) :
    receive raw = .ok (some (payloadSlice raw)) := by
  rw [receive_eq raw h2]
  rw [if_neg (by rw [hv]; exact fun hc => Bool.noConfusion hc)]
  rw [if_neg (by rw [hk]; exact fun hc => Bool.noConfusion hc)]
  rw [if_neg (fun hcon => hcon hcrc)]
  rw [if_neg (fun hcon => hcon ht)]
  rw [if_neg (fun h5 => short_frames_fail raw h2 h5 hbytes hv hk hcrc)]

theorem receive_length_one (b : Nat) :
    receive [b]
      = if protocolVersionHasValue b = true then .error () else .ok none := by
  have hp0 : pyIdx [b] (0 : Int) = .ok b := by
    have := pyIdx_nat [b] 0 b (by simp)
    simpa using this
  have hp1 : pyIdx [b] (1 : Int) = .error () := by
    have := pyIdx_nat_err [b] 1 (by simp)
    simpa using this
  by_cases hv : protocolVersionHasValue b = false
  · rw [if_neg (by rw [hv]; exact fun hc => Bool.noConfusion hc)]
    simp only [receive, hp0, hp1, Bind.bind, Except.bind, pure, Except.pure]
    simp [hv]
  · rw [if_pos (bool_ne_false hv)]
    simp only [receive, hp0, hp1, Bind.bind, Except.bind, pure, Except.pure]
    simp [hv]

/-! ### Claim C1 -/

/-- C1.  Frame round-trip: for every payload list `B` of bytes whose byte 0 is
a recognised protocol version and byte 1 a recognised packet kind, the frame
built by `PjonClient.send_packet` (`B` followed by the CRC high byte, the CRC
low byte and the terminator `0x24`) passes all four validation checks of
`PjonClient.receive`, and `receive` forwards exactly `B` to the receiver. -/
theorem claim_C1_frame_roundtrip (B : List Nat) (hlen : 2 ≤ B.length)
    (_hbytes : ∀ b ∈ B, b < 256)
    (hver : protocolVersionHasValue (B.getD 0 0) = true)
    (hkind : packetHasValue (B.getD 1 0) = true) :
    receive (sendPacketFrame B) = .ok (some B) := by
  set f := sendPacketFrame B with hf
  have hflen : f.length = B.length + 3 := by simp [hf, sendPacketFrame]
  have hL3 : ((f.length : Int) - 3) = ((B.length : Nat) : Int) := by omega
  have hL2 : ((f.length : Int) - 2) = (((B.length + 1) : Nat) : Int) := by push_cast; omega
  have h0 : f[0]? = some (B.getD 0 0) := by
    rw [hf, sendPacketFrame, List.getElem?_append_left (by omega)]
    have h0lt : 0 < B.length := by omega
    rw [List.getElem?_eq_getElem h0lt]
    simp [List.getD, List.getElem?_eq_getElem h0lt]
  have h1 : f[1]? = some (B.getD 1 0) := by
    rw [hf, sendPacketFrame, List.getElem?_append_left (by omega)]
    have h1lt : 1 < B.length := by omega
    rw [List.getElem?_eq_getElem h1lt]
    simp [List.getD, List.getElem?_eq_getElem h1lt]
  have hhi : f[B.length]? = some (crc16 B >>> 8) := by
    rw [hf, sendPacketFrame, List.getElem?_append_right (by omega)]
    simp
  have hlo : f[B.length + 1]? = some (crc16 B &&& 0xFF) := by
    rw [hf, sendPacketFrame, List.getElem?_append_right (by omega)]
    simp
  have hlast : f[B.length + 2]? = some TERMINATOR := by
    rw [hf, sendPacketFrame, List.getElem?_append_right (by omega)]
    simp
  have htake : f.take B.length = B := by
    rw [hf, sendPacketFrame]
    exact List.take_left' rfl
  have hrc := crc16_recompose B
  have hp0 : pyIdx f (0 : Int) = .ok (B.getD 0 0) := by
    have := pyIdx_nat f 0 _ h0
    simpa using this
  have hp1 : pyIdx f (1 : Int) = .ok (B.getD 1 0) := by
    have := pyIdx_nat f 1 _ h1
    simpa using this
  have hB1 : B[1]? = some (B.getD 1 0) := by
    have h1lt : 1 < B.length := by omega
    rw [List.getElem?_eq_getElem h1lt]
    simp [List.getD, List.getElem?_eq_getElem h1lt]
  have hpB1 : pyIdx B (1 : Int) = .ok (B.getD 1 0) := by
    have := pyIdx_nat B 1 _ hB1
    simpa using this
  have hlast' : f[f.length - 1]? = some TERMINATOR := by
    have he : f.length - 1 = B.length + 2 := by omega
    rw [he]
    exact hlast
  have hne : f ≠ [] := by
    intro hc
    rw [hc] at hflen
    simp at hflen
  have hpneg := pyIdx_neg_one f TERMINATOR hlast' hne
  simp only [List.getD_eq_getElem?_getD] at hver hkind
  simp only [receive, hL3, hL2, pySlice0_nat, htake, hp0, hp1, hpB1, hpneg,
    pyIdx_nat f B.length _ hhi, pyIdx_nat f (B.length + 1) _ hlo, hrc]
  simp [hver, hkind, Bind.bind, Except.bind, pure, Except.pure]
  exact hrc.symm

/-- Witness for C1 at the search broadcast payload `[0x01, 0x04, 0x01]`. -/
theorem claim_C1_frame_roundtrip_witness :
    receive (sendPacketFrame [0x01, 0x04, 0x01]) = .ok (some [0x01, 0x04, 0x01]) :=
  claim_C1_frame_roundtrip [0x01, 0x04, 0x01] (by decide) (by decide) (by decide) (by decide)

/-! ### Claim C3 -/

/-- C3 as stated is false: the empty inbound byte sequence makes
`PjonClient.receive` raise `IndexError` at `raw_payload[0]` instead of
returning normally. -/
theorem claim_C3_counterexample : receive [] = .error () := rfl

/-- C3 (amended).  The empty inbound sequence raises `IndexError` at
`raw_payload[0]`; a length-1 sequence raises `IndexError` at
`raw_payload[1]` exactly when its single byte is a recognised protocol
version, and otherwise the version check drops it normally.  For every
inbound byte sequence of length at least 2, `PjonClient.receive` returns
normally without raising; a frame failing any of the four checks
(unrecognised protocol-version byte, unrecognised packet-kind byte, CRC
mismatch against `(payload[L-3] << 8) | payload[L-2]`, last byte not the
`0x24` terminator) is dropped without being forwarded to the receiver, and
only frames passing all four checks are forwarded. -/
theorem claim_C3_receive_safety :
    receive [] = .error ()
  ∧ (∀ b : Nat, receive [b]
        = if protocolVersionHasValue b = true then .error () else .ok none)
  ∧ (∀ raw : List Nat, 2 ≤ raw.length → (∀ b ∈ raw, b < 256) →
        ∃ r, receive raw = .ok r)
  ∧ (∀ raw p : List Nat, receive raw = .ok (some p) →
        p = payloadSlice raw
        ∧ protocolVersionHasValue (raw.getD 0 0) = true
        ∧ packetHasValue (raw.getD 1 0) = true
        ∧ crc16 p
            = ((raw.getD (crcHiIndex raw.length) 0 <<< 8) ||| raw.getD (raw.length - 2) 0)
        ∧ raw.getD (raw.length - 1) 0 = TERMINATOR)
  ∧ (∀ raw : List Nat, 2 ≤ raw.length → (∀ b ∈ raw, b < 256) →
        protocolVersionHasValue (raw.getD 0 0) = true →
        packetHasValue (raw.getD 1 0) = true →
        crc16 (payloadSlice raw)
          = ((raw.getD (crcHiIndex raw.length) 0 <<< 8) ||| raw.getD (raw.length - 2) 0) →
        raw.getD (raw.length - 1) 0 = TERMINATOR →
        receive raw = .ok (some (payloadSlice raw))) :=
  ⟨rfl, receive_length_one, receive_never_raises, receive_some_characterisation,
   receive_pass_forwards⟩

/-- Witness for C3: the length-1 sequence `[5]` is dropped normally by the
version check, and the concrete frame `[1, 4, 1, 249, 234, 36]` passes all
four checks and is forwarded. -/
theorem claim_C3_receive_safety_witness :
    receive [5] = .ok none
    ∧ receive [1, 4, 1, 249, 234, 36]
        = .ok (some (payloadSlice [1, 4, 1, 249, 234, 36])) :=
  ⟨by rw [claim_C3_receive_safety.2.1 5, if_neg (by decide)],
   claim_C3_receive_safety.2.2.2.2 [1, 4, 1, 249, 234, 36] (by decide) (by decide)
     (by decide) (by decide) (by decide) (by decide)⟩

/-! ### Claim C5 -/

theorem ackWait_iff (t0 w : ℤ) (polls : List (ℤ × Nat)) :
    ackWait t0 w polls = true ↔
      ∃ i, i < polls.length ∧ (polls.getD i (0, 0)).2 = PJON_ACK
        ∧ ∀ j ≤ i, (polls.getD j (0, 0)).1 - t0 ≤ w := by
  induction polls with
  | nil =>
      simp [ackWait]
  | cons hd rest ih =>
      obtain ⟨t, s⟩ := hd
      by_cases ht : t - t0 ≤ w
      · by_cases hs : s = PJON_ACK
        · simp only [ackWait, if_pos ht, if_pos hs]
          constructor
          · intro _
            refine ⟨0, by simp, by simpa using hs, ?_⟩
            intro j hj
            have hj0 : j = 0 := Nat.le_zero.mp hj
            subst hj0
            simpa using ht
          · intro _
            trivial
        · simp only [ackWait, if_pos ht, if_neg hs]
          rw [ih]
          constructor
          · rintro ⟨i, hi, hack, hall⟩
            refine ⟨i + 1, by simpa using hi, by simpa using hack, ?_⟩
            intro j hj
            cases j with
            | zero => simpa using ht
            | succ j' =>
                have := hall j' (by omega)
                simpa using this
          · rintro ⟨i, hi, hack, hall⟩
            cases i with
            | zero =>
                exact absurd (by simpa using hack) hs
            | succ i' =>
                refine ⟨i', by simpa using hi, by simpa using hack, ?_⟩
                intro j hj
                have := hall (j + 1) (by omega)
                simpa using this
      · simp only [ackWait, if_neg ht]
        constructor
        · intro hc
          exact Bool.noConfusion hc
        · rintro ⟨i, hi, hack, hall⟩
          have := hall 0 (by omega)
          simp only [List.getD_cons_zero] at this
          exact absurd this ht

/-- C5.  `PjonClient.send_packet` with `waiting_time > 0` returns `True` iff
some `loop()` poll reports the `PJON_ACK` send status while every clock
reading up to and including that poll is still within the `waiting_time`
budget; with `waiting_time = 0` (the non-broadcast path) it returns `True`
unconditionally, whatever the underlying send outcome was. -/
theorem claim_C5_send_packet_return :
    (∀ (send_result : Bool) (t0 : ℤ) (polls : List (ℤ × Nat)),
        sendPacketReturn send_result 0 t0 polls = true)
  ∧ (∀ (send_result : Bool) (w t0 : ℤ) (polls : List (ℤ × Nat)), 0 < w →
        (sendPacketReturn send_result w t0 polls = true ↔
          ∃ i, i < polls.length ∧ (polls.getD i (0, 0)).2 = PJON_ACK
            ∧ ∀ j ≤ i, (polls.getD j (0, 0)).1 - t0 ≤ w)) := by
  constructor
  · intro send_result t0 polls
    simp [sendPacketReturn]
  · intro send_result w t0 polls hw
    rw [sendPacketReturn, if_pos hw]
    exact ackWait_iff t0 w polls

/-- Witness for C5: a poll stream that acks at its second poll inside a
2-second budget. -/
theorem claim_C5_send_packet_return_witness :
    sendPacketReturn false 2 0 [(1, 0), (2, PJON_ACK)] = true := by
  have h := claim_C5_send_packet_return.2 false 2 0 [(1, 0), (2, PJON_ACK)] (by norm_num)
  refine h.mpr ⟨1, by norm_num, by simp, ?_⟩
  intro j hj
  interval_cases j <;> norm_num [PJON_ACK]

/-! ### Claim C6 -/

/-- C6.  `PjonClient.__crc16` coincides with the reference CRC-16
definition (seed `0xFFFF`, LSB-first bit processing with reflected
polynomial `0x8408`, final complement, byte swap), and the CRC that
`send_packet` appends is computed over exactly the payload bytes - the two
CRC bytes and the terminator are appended after the CRC is taken. -/
theorem claim_C6_crc16_reference :
    (∀ data : List Nat, crc16 data = crc16Reference data)
  ∧ (∀ payload : List Nat,
      (sendPacketFrame payload).take payload.length = payload
      ∧ (sendPacketFrame payload).drop payload.length
          = [crc16 ((sendPacketFrame payload).take payload.length) >>> 8,
             crc16 ((sendPacketFrame payload).take payload.length) &&& 0xFF,
             TERMINATOR]) := by
  constructor
  · exact crc16_eq_reference
  · intro payload
    have htake : (sendPacketFrame payload).take payload.length = payload :=
      List.take_left' rfl
    refine ⟨htake, ?_⟩
    rw [htake]
    exact List.drop_left _ _

/-! ### Claim C10 -/

/-- C10.  `send_packet` (and `broadcast_packet`, which delegates to it)
mutates the caller's payload list in place, appending exactly the CRC high
byte, the CRC low byte and the `0x24` terminator; the pairing sender
`__send_data_to_device` additionally inserts the protocol-version byte at
index 0 of the list it passes, so the list object a caller retains after
that call no longer equals the payload it supplied. -/
theorem claim_C10_payload_mutation :
    (∀ payload : List Nat,
        (sendPacketFrame payload).length = payload.length + 3
        ∧ (sendPacketFrame payload).take payload.length = payload
        ∧ (sendPacketFrame payload).drop payload.length
            = [crc16 payload >>> 8, crc16 payload &&& 0xFF, TERMINATOR]
        ∧ broadcastPacketFrame payload = sendPacketFrame payload)
  ∧ (∀ data : List Nat, sendDataToDevicePayload data ≠ data) := by
  constructor
  · intro payload
    refine ⟨by simp [sendPacketFrame], List.take_left' rfl, List.drop_left _ _, rfl⟩
  · intro data hc
    have hlen := congrArg List.length hc
    simp [sendDataToDevicePayload, sendPacketFrame] at hlen
    omega


/-! ### Claim C4: register-selection order in PROVIDE_REGISTER_STRUCTURE -/

theorem move_to_next_true_iff (s : PairingState) :
    (move_to_next_register_for_init s).2 = true ↔
      ∃ r ∈ s.pairing_device_registers, r.data_type = .unknown := by
  unfold move_to_next_register_for_init
  by_cases hinit : has_registers_to_init
      { s with processing_register_type := none, processing_register_address := none } = true
  · rw [if_pos hinit]
    have hex : ∃ r ∈ s.pairing_device_registers, r.data_type = .unknown := by
      unfold has_registers_to_init at hinit
      simp only [List.any_eq_true] at hinit
      obtain ⟨r, hr, hdt⟩ := hinit
      exact ⟨r, hr, by simpa using hdt⟩
    rcases h1 : List.find? (fun r => r.data_type == DeviceDataType.unknown
        && (r.type == RegisterType.input || r.type == RegisterType.output))
        s.pairing_device_registers with _ | r1
    · rcases h2 : List.find? (fun r => r.data_type == DeviceDataType.unknown
          && r.type == RegisterType.attrib) s.pairing_device_registers with _ | r2
      · rcases h3 : List.find? (fun r => r.data_type == DeviceDataType.unknown
            && r.type == RegisterType.setting) s.pairing_device_registers with _ | r3
        · obtain ⟨r, hr, hdt⟩ := hex
          have n1 := List.find?_eq_none.mp h1 r hr
          have n2 := List.find?_eq_none.mp h2 r hr
          have n3 := List.find?_eq_none.mp h3 r hr
          simp only [hdt] at n1 n2 n3
          cases hty : r.type <;> simp [hty] at n1 n2 n3
        · simp [h1, h2, h3, hex]
      · simp [h1, h2, hex]
    · simp [h1, hex]
  · rw [if_neg hinit]
    simp only [Bool.false_eq_true, false_iff]
    rintro ⟨r, hr, hdt⟩
    apply hinit
    unfold has_registers_to_init
    simp only [List.any_eq_true]
    exact ⟨r, hr, by simpa using hdt⟩

theorem move_to_next_group1 (s : PairingState)
    (h : ∃ r ∈ s.pairing_device_registers,
        r.data_type = .unknown ∧ (r.type = .input ∨ r.type = .output)) :
    ∃ r ∈ s.pairing_device_registers,
      r.data_type = .unknown ∧ (r.type = .input ∨ r.type = .output)
      ∧ (move_to_next_register_for_init s).1.processing_register_type = some r.type
      ∧ (move_to_next_register_for_init s).1.processing_register_address = some r.address := by
  obtain ⟨r0, hr0, hdt0, hty0⟩ := h
  have hfind : ∃ r1, List.find? (fun r => r.data_type == DeviceDataType.unknown
      && (r.type == RegisterType.input || r.type == RegisterType.output))
      s.pairing_device_registers = some r1 := by
    rcases hf : List.find? (fun r => r.data_type == DeviceDataType.unknown
        && (r.type == RegisterType.input || r.type == RegisterType.output))
        s.pairing_device_registers with _ | r1
    · have := List.find?_eq_none.mp hf r0 hr0
      rcases hty0 with h | h <;> simp [hdt0, h] at this
    · exact ⟨r1, hf⟩
  obtain ⟨r1, hf⟩ := hfind
  have hmem : r1 ∈ s.pairing_device_registers := List.mem_of_find?_eq_some hf
  have hprop := List.find?_some hf
  simp only [Bool.and_eq_true, beq_iff_eq, Bool.or_eq_true] at hprop
  have hinit : has_registers_to_init
      { s with processing_register_type := none, processing_register_address := none } = true := by
    unfold has_registers_to_init
    simp only [List.any_eq_true]
    exact ⟨r0, hr0, by simp [hdt0]⟩
  refine ⟨r1, hmem, hprop.1, hprop.2, ?_, ?_⟩ <;>
    · unfold move_to_next_register_for_init
      rw [if_pos hinit, hf]

theorem move_to_next_attrib (s : PairingState)
    (h1 : ¬ ∃ r ∈ s.pairing_device_registers,
        r.data_type = .unknown ∧ (r.type = .input ∨ r.type = .output))
    (h2 : ∃ r ∈ s.pairing_device_registers,
        r.data_type = .unknown ∧ r.type = .attrib) :
    (move_to_next_register_for_init s).1.processing_register_type
      = some RegisterType.attrib := by
  obtain ⟨r0, hr0, hdt0, hty0⟩ := h2
  have hf1 : List.find? (fun r => r.data_type == DeviceDataType.unknown
      && (r.type == RegisterType.input || r.type == RegisterType.output))
      s.pairing_device_registers = none := by
    rw [List.find?_eq_none]
    intro r hr
    intro hc
    simp only [Bool.and_eq_true, beq_iff_eq, Bool.or_eq_true] at hc
    exact h1 ⟨r, hr, hc.1, hc.2⟩
  have hfind : ∃ r1, List.find? (fun r => r.data_type == DeviceDataType.unknown
      && r.type == RegisterType.attrib) s.pairing_device_registers = some r1 := by
    rcases hf : List.find? (fun r => r.data_type == DeviceDataType.unknown
        && r.type == RegisterType.attrib) s.pairing_device_registers with _ | r1
    · have := List.find?_eq_none.mp hf r0 hr0
      simp [hdt0, hty0] at this
    · exact ⟨r1, hf⟩
  obtain ⟨r1, hf2⟩ := hfind
  have hinit : has_registers_to_init
      { s with processing_register_type := none, processing_register_address := none } = true := by
    unfold has_registers_to_init
    simp only [List.any_eq_true]
    exact ⟨r0, hr0, by simp [hdt0]⟩
  unfold move_to_next_register_for_init
  rw [if_pos hinit, hf1, hf2]

theorem move_to_next_setting (s : PairingState)
    (h1 : ¬ ∃ r ∈ s.pairing_device_registers,
        r.data_type = .unknown ∧ (r.type = .input ∨ r.type = .output))
    (h2 : ¬ ∃ r ∈ s.pairing_device_registers,
        r.data_type = .unknown ∧ r.type = .attrib)
    (h3 : ∃ r ∈ s.pairing_device_registers,
        r.data_type = .unknown ∧ r.type = .setting) :
    (move_to_next_register_for_init s).1.processing_register_type
      = some RegisterType.setting := by
  obtain ⟨r0, hr0, hdt0, hty0⟩ := h3
  have hf1 : List.find? (fun r => r.data_type == DeviceDataType.unknown
      && (r.type == RegisterType.input || r.type == RegisterType.output))
      s.pairing_device_registers = none := by
    rw [List.find?_eq_none]
    intro r hr hc
    simp only [Bool.and_eq_true, beq_iff_eq, Bool.or_eq_true] at hc
    exact h1 ⟨r, hr, hc.1, hc.2⟩
  have hf2 : List.find? (fun r => r.data_type == DeviceDataType.unknown
      && r.type == RegisterType.attrib) s.pairing_device_registers = none := by
    rw [List.find?_eq_none]
    intro r hr hc
    simp only [Bool.and_eq_true, beq_iff_eq] at hc
    exact h2 ⟨r, hr, hc.1, hc.2⟩
  have hfind : ∃ r1, List.find? (fun r => r.data_type == DeviceDataType.unknown
      && r.type == RegisterType.setting) s.pairing_device_registers = some r1 := by
    rcases hf : List.find? (fun r => r.data_type == DeviceDataType.unknown
        && r.type == RegisterType.setting) s.pairing_device_registers with _ | r1
    · have := List.find?_eq_none.mp hf r0 hr0
      simp [hdt0, hty0] at this
    · exact ⟨r1, hf⟩
  obtain ⟨r1, hf3⟩ := hfind
  have hinit : has_registers_to_init
      { s with processing_register_type := none, processing_register_address := none } = true := by
    unfold has_registers_to_init
    simp only [List.any_eq_true]
    exact ⟨r0, hr0, by simp [hdt0]⟩
  unfold move_to_next_register_for_init
  rw [if_pos hinit, hf1, hf2, hf3]

/-- C4 as stated is false: with the set iterating an UNKNOWN OUTPUT register
at address 7 before an UNKNOWN INPUT register at address 3,
`move_to_next_register_for_init` selects the OUTPUT register at address 7 -
neither INPUT-before-OUTPUT nor ascending-address order holds. -/
theorem claim_C4_counterexample :
    (move_to_next_register_for_init c4State).1.processing_register_type
        = some RegisterType.output
    ∧ (move_to_next_register_for_init c4State).1.processing_register_address = some 7
    ∧ (∃ r ∈ c4State.pairing_device_registers,
        r.data_type = .unknown ∧ r.type = .input ∧ r.address = 3) := by
  decide

/-- C4 (amended).  `move_to_next_register_for_init` succeeds exactly when
some register still has data type UNKNOWN, and it selects a register of
kind INPUT-or-OUTPUT (the two ranked equally) in preference to ATTRIBUTE,
and ATTRIBUTE in preference to SETTING; within a group the choice follows
the set's iteration order, which is not ordered by address or by
INPUT-before-OUTPUT. -/
theorem claim_C4_register_selection :
    ∀ s : PairingState,
      ((move_to_next_register_for_init s).2 = true ↔
        ∃ r ∈ s.pairing_device_registers, r.data_type = .unknown)
      ∧ ((∃ r ∈ s.pairing_device_registers,
            r.data_type = .unknown ∧ (r.type = .input ∨ r.type = .output)) →
          ∃ r ∈ s.pairing_device_registers,
            r.data_type = .unknown ∧ (r.type = .input ∨ r.type = .output)
            ∧ (move_to_next_register_for_init s).1.processing_register_type = some r.type
            ∧ (move_to_next_register_for_init s).1.processing_register_address
                = some r.address)
      ∧ ((¬ ∃ r ∈ s.pairing_device_registers,
            r.data_type = .unknown ∧ (r.type = .input ∨ r.type = .output)) →
          (∃ r ∈ s.pairing_device_registers,
            r.data_type = .unknown ∧ r.type = .attrib) →
          (move_to_next_register_for_init s).1.processing_register_type
            = some RegisterType.attrib)
      ∧ ((¬ ∃ r ∈ s.pairing_device_registers,
            r.data_type = .unknown ∧ (r.type = .input ∨ r.type = .output)) →
          (¬ ∃ r ∈ s.pairing_device_registers,
            r.data_type = .unknown ∧ r.type = .attrib) →
          (∃ r ∈ s.pairing_device_registers,
            r.data_type = .unknown ∧ r.type = .setting) →
          (move_to_next_register_for_init s).1.processing_register_type
            = some RegisterType.setting) :=
  fun s => ⟨move_to_next_true_iff s, move_to_next_group1 s,
    move_to_next_attrib s, move_to_next_setting s⟩

/-- Witness for C4 at a state whose only UNKNOWN register is an attribute. -/
theorem claim_C4_register_selection_witness :
    (move_to_next_register_for_init c4AttribState).1.processing_register_type
      = some RegisterType.attrib :=
  (claim_C4_register_selection c4AttribState).2.2.1 (by decide) (by decide)

/-! ### Claim C9: connector stop/drain behaviour -/

/-- C9.  After `stop()`, a `loop()` call finding unfinished tasks still runs
`Receiver.loop()` and `Consumer.loop()` but neither `Pairing.loop()` nor
`Publisher.loop()` (nor the client), and the connector stays stopped; once
`has_unfinished_tasks()` is false, a stopped connector's `loop()` returns
without invoking any component; and `stop()` itself marks the connector
stopped and sets the state of every device in the registry to UNKNOWN. -/
theorem claim_C9_stop_drain :
    ∀ (receiverLoop consumerLoop pairingLoopF publisherLoop :
        ConnectorState → ConnectorState)
      (clientLoop : ConnectorState → ConnectorState × Nat) (s : ConnectorState),
      (∀ t, (receiverLoop t).stopped = t.stopped) →
      (∀ t, (consumerLoop t).stopped = t.stopped) →
      ((s.stopped = true → has_unfinished_tasks s = true →
          (connectorLoop receiverLoop consumerLoop pairingLoopF publisherLoop
              clientLoop s).2 = ⟨true, true, false, false, false⟩
          ∧ (connectorLoop receiverLoop consumerLoop pairingLoopF publisherLoop
              clientLoop s).1 = consumerLoop (receiverLoop s)
          ∧ (connectorLoop receiverLoop consumerLoop pairingLoopF publisherLoop
              clientLoop s).1.stopped = true)
      ∧ (s.stopped = true → has_unfinished_tasks s = false →
          connectorLoop receiverLoop consumerLoop pairingLoopF publisherLoop
              clientLoop s = (s, ⟨false, false, false, false, false⟩))
      ∧ ((connectorStop s).stopped = true
          ∧ ∀ d ∈ (connectorStop s).devices_registry, d.state = .unknown)) := by
  intro receiverLoop consumerLoop pairingLoopF publisherLoop clientLoop s hrs hcs
  refine ⟨?_, ?_, ?_, ?_⟩
  · intro hstop hbusy
    unfold connectorLoop
    rw [if_neg (by rw [hstop, hbusy]; rintro ⟨_, hc⟩; exact Bool.noConfusion hc)]
    have h2 : (consumerLoop (receiverLoop s)).stopped = true := by
      rw [hcs, hrs, hstop]
    rw [if_pos h2]
    exact ⟨rfl, rfl, h2⟩
  · intro hstop hidle
    unfold connectorLoop
    rw [if_pos ⟨hstop, hidle⟩]
  · rfl
  · intro d hd
    unfold connectorStop at hd
    simp only [List.mem_map] at hd
    obtain ⟨d0, _, hback⟩ := hd
    rw [← hback]

/-- Witness for C9: a stopped connector with one queued inbound item keeps
draining; the same connector with empty queues no-ops. -/
theorem claim_C9_stop_drain_witness :
    ((connectorLoop id id id id (fun t => (t, 0)) c9BusyState).2
        = ⟨true, true, false, false, false⟩)
    ∧ (connectorLoop id id id id (fun t => (t, 0)) c9IdleState
        = (c9IdleState, ⟨false, false, false, false, false⟩))
    ∧ (∀ d ∈ (connectorStop c9BusyState).devices_registry, d.state = .unknown) := by
  have h := claim_C9_stop_drain id id id id (fun t => (t, 0)) c9BusyState
    (fun _ => rfl) (fun _ => rfl)
  have h2 := claim_C9_stop_drain id id id id (fun t => (t, 0)) c9IdleState
    (fun _ => rfl) (fun _ => rfl)
  exact ⟨(h.1 (by decide) (by decide)).1, h2.2.1 (by decide) (by decide), h.2.2.2⟩



/-! ### Pairing loop lemmas (claims C2, C7, C8) -/

/-- States that differ only in the pairing register skeleton and the fresh
uuid counter (all the `__configure_*` helpers touch nothing else). -/
def RegsOnly (s t : PairingState) : Prop :=
  ∃ regs fresh, t = { s with pairing_device_registers := regs, fresh_uuid := fresh }

theorem regsOnly_refl (s : PairingState) : RegsOnly s s :=
  ⟨s.pairing_device_registers, s.fresh_uuid, rfl⟩

theorem regsOnly_trans {s t u : PairingState} (h1 : RegsOnly s t) (h2 : RegsOnly t u) :
    RegsOnly s u := by
  obtain ⟨r1, f1, rfl⟩ := h1
  obtain ⟨r2, f2, rfl⟩ := h2
  exact ⟨r2, f2, rfl⟩

theorem foldl_regsOnly (f : PairingState → Nat → PairingState)
    (hf : ∀ t a, RegsOnly t (f t a)) :
    ∀ (l : List Nat) (s : PairingState), RegsOnly s (l.foldl f s) := by
  intro l
  induction l with
  | nil => exact fun s => regsOnly_refl s
  | cons a rest ih =>
      intro s
      exact regsOnly_trans (hf s a) (ih (f s a))

theorem configure_registers_regsOnly (device_id n : Nat) (ty : RegisterType)
    (s : PairingState) : RegsOnly s (configure_registers device_id n ty s) := by
  unfold configure_registers
  apply foldl_regsOnly
  intro t a
  dsimp only
  split <;> split <;> exact ⟨_, _, rfl⟩

theorem configure_attributes_regsOnly (device_id n : Nat) (s : PairingState) :
    RegsOnly s (configure_attributes device_id n s) := by
  unfold configure_attributes
  apply foldl_regsOnly
  intro t a
  dsimp only
  split
  · split
    · exact ⟨_, _, rfl⟩
    · exact regsOnly_refl t
  · exact ⟨_, _, rfl⟩

theorem configure_settings_regsOnly (device_id n : Nat) (s : PairingState) :
    RegsOnly s (configure_settings device_id n s) := by
  unfold configure_settings
  apply foldl_regsOnly
  intro t a
  dsimp only
  split
  · split
    · exact ⟨_, _, rfl⟩
    · exact regsOnly_refl t
  · exact ⟨_, _, rfl⟩

theorem configure_device_regsOnly (d : PairingDeviceRecord) (s : PairingState) :
    RegsOnly s (configure_device d s) := by
  unfold configure_device
  exact regsOnly_trans (configure_registers_regsOnly _ _ _ _)
    (regsOnly_trans (configure_registers_regsOnly _ _ _ _)
      (regsOnly_trans (configure_attributes_regsOnly _ _ _)
        (configure_settings_regsOnly _ _ _)))

theorem regsOnly_proj {s t : PairingState} (h : RegsOnly s t) :
    t.total_attempts = s.total_attempts ∧ t.attempts = s.attempts
    ∧ t.sent_frames = s.sent_frames ∧ t.finished_cmd = s.finished_cmd
    ∧ t.waiting_for_packet = s.waiting_for_packet
    ∧ t.broadcasting_search_finished = s.broadcasting_search_finished
    ∧ t.pairing_enabled = s.pairing_enabled
    ∧ t.pairing_device = s.pairing_device
    ∧ t.found_devices = s.found_devices
    ∧ t.last_request_send_timestamp = s.last_request_send_timestamp := by
  obtain ⟨r, f, rfl⟩ := h
  exact ⟨rfl, rfl, rfl, rfl, rfl, rfl, rfl, rfl, rfl, rfl⟩

/-- What `discover_device` guarantees about the fields the loop logic
reads: counters and waiting flag cleared, no frame emitted, finished
commands cleared; it only disables (never enables) pairing, preserves the
search-finished flag while pairing stays enabled, and when it ends without
a pairing device it has disabled pairing. -/
theorem configure_device_total (d : PairingDeviceRecord) (s : PairingState) :
    (configure_device d s).total_attempts = s.total_attempts :=
  (regsOnly_proj (configure_device_regsOnly d s)).1

theorem configure_device_attempts (d : PairingDeviceRecord) (s : PairingState) :
    (configure_device d s).attempts = s.attempts :=
  (regsOnly_proj (configure_device_regsOnly d s)).2.1

theorem configure_device_sent_frames (d : PairingDeviceRecord) (s : PairingState) :
    (configure_device d s).sent_frames = s.sent_frames :=
  (regsOnly_proj (configure_device_regsOnly d s)).2.2.1

theorem configure_device_finished_cmd (d : PairingDeviceRecord) (s : PairingState) :
    (configure_device d s).finished_cmd = s.finished_cmd :=
  (regsOnly_proj (configure_device_regsOnly d s)).2.2.2.1

theorem configure_device_waiting (d : PairingDeviceRecord) (s : PairingState) :
    (configure_device d s).waiting_for_packet = s.waiting_for_packet :=
  (regsOnly_proj (configure_device_regsOnly d s)).2.2.2.2.1

theorem configure_device_search_finished (d : PairingDeviceRecord) (s : PairingState) :
    (configure_device d s).broadcasting_search_finished
      = s.broadcasting_search_finished :=
  (regsOnly_proj (configure_device_regsOnly d s)).2.2.2.2.2.1

theorem configure_device_enabled (d : PairingDeviceRecord) (s : PairingState) :
    (configure_device d s).pairing_enabled = s.pairing_enabled :=
  (regsOnly_proj (configure_device_regsOnly d s)).2.2.2.2.2.2.1

theorem configure_device_pairing_device (d : PairingDeviceRecord) (s : PairingState) :
    (configure_device d s).pairing_device = s.pairing_device :=
  (regsOnly_proj (configure_device_regsOnly d s)).2.2.2.2.2.2.2.1

theorem configure_device_found (d : PairingDeviceRecord) (s : PairingState) :
    (configure_device d s).found_devices = s.found_devices :=
  (regsOnly_proj (configure_device_regsOnly d s)).2.2.2.2.2.2.2.2.1

theorem configure_device_timestamp (d : PairingDeviceRecord) (s : PairingState) :
    (configure_device d s).last_request_send_timestamp
      = s.last_request_send_timestamp :=
  (regsOnly_proj (configure_device_regsOnly d s)).2.2.2.2.2.2.2.2.2

/-- What `discover_device` guarantees about the fields the loop logic
reads: both counters and the waiting flag cleared, no frame emitted, the
finished-command list cleared; it never enables pairing, preserves the
search-finished flag while pairing stays enabled, and when it ends with no
pairing device selected it has disabled pairing. -/
theorem discoverFuel_spec : ∀ (fuel : Nat) (s : PairingState),
    s.found_devices.length < fuel →
    (discoverFuel fuel s).total_attempts = 0
    ∧ (discoverFuel fuel s).attempts = 0
    ∧ (discoverFuel fuel s).sent_frames = s.sent_frames
    ∧ (discoverFuel fuel s).finished_cmd = []
    ∧ (discoverFuel fuel s).waiting_for_packet = none
    ∧ ((discoverFuel fuel s).pairing_enabled = true →
        s.pairing_enabled = true
        ∧ (discoverFuel fuel s).broadcasting_search_finished
            = s.broadcasting_search_finished)
    ∧ ((discoverFuel fuel s).pairing_device = none →
        (discoverFuel fuel s).pairing_enabled = false) := by
  intro fuel
  induction fuel with
  | zero =>
      intro s hlen
      exact absurd hlen (Nat.not_lt_zero _)
  | succ n ih =>
      intro s hlen
      rw [discoverFuel]
      split
      · exact ⟨rfl, rfl, rfl, rfl, rfl, fun hc => Bool.noConfusion hc, fun _ => rfl⟩
      · rename_i d rest hfd
        have hsfd : s.found_devices = d :: rest := hfd
        have hrest : rest.length < n := by
          rw [hsfd] at hlen
          simpa [Nat.succ_lt_succ_iff] using hlen
        dsimp only
        split
        · -- device unknown to the registry
          split
          · -- no free address: recurse to the next device
            exact ih _ hrest
          · -- free address found: configure the device
            refine ⟨?_, ?_, ?_, ?_, ?_, ?_, ?_⟩ <;>
              simp [configure_device_total, configure_device_attempts,
                configure_device_sent_frames, configure_device_finished_cmd,
                configure_device_waiting, configure_device_search_finished,
                configure_device_enabled, configure_device_pairing_device,
                reset_device_pointers]
        · -- device known to the registry
          split
          · -- address unassigned in the registry
            split
            · exact ih _ hrest
            · refine ⟨?_, ?_, ?_, ?_, ?_, ?_, ?_⟩ <;>
                simp [configure_device_total, configure_device_attempts,
                  configure_device_sent_frames, configure_device_finished_cmd,
                  configure_device_waiting, configure_device_search_finished,
                  configure_device_enabled, configure_device_pairing_device,
                  reset_device_pointers]
          · refine ⟨?_, ?_, ?_, ?_, ?_, ?_, ?_⟩ <;>
              simp [configure_device_total, configure_device_attempts,
                configure_device_sent_frames, configure_device_finished_cmd,
                configure_device_waiting, configure_device_search_finished,
                configure_device_enabled, configure_device_pairing_device,
                reset_device_pointers]

theorem discover_device_spec (s : PairingState) :
    (discover_device s).total_attempts = 0
    ∧ (discover_device s).attempts = 0
    ∧ (discover_device s).sent_frames = s.sent_frames
    ∧ (discover_device s).finished_cmd = []
    ∧ (discover_device s).waiting_for_packet = none
    ∧ ((discover_device s).pairing_enabled = true →
        s.pairing_enabled = true
        ∧ (discover_device s).broadcasting_search_finished
            = s.broadcasting_search_finished)
    ∧ ((discover_device s).pairing_device = none →
        (discover_device s).pairing_enabled = false) :=
  discoverFuel_spec (s.found_devices.length + 1) s (Nat.lt_succ_self _)

theorem discover_device_pops_head (s : PairingState) (d : PairingDeviceRecord)
    (rest : List PairingDeviceRecord) (a : Nat)
    (hfd : s.found_devices = d :: rest)
    (hget : get_by_id s.devices_registry d.id = none)
    (hfree : find_free_address s.devices_registry d.client_id = some a) :
    (discover_device s).pairing_device = some { d with address := a }
    ∧ (discover_device s).found_devices = rest := by
  rw [discover_device, hfd]
  rw [discoverFuel]
  split
  · rename_i h
    rw [show (reset_device_pointers s).found_devices = s.found_devices from rfl, hfd] at h
    exact List.noConfusion h
  · rename_i d' rest' hfd2
    rw [show (reset_device_pointers s).found_devices = s.found_devices from rfl, hfd] at hfd2
    obtain ⟨rfl, rfl⟩ : d = d' ∧ rest = rest' :=
      ⟨(List.cons.inj hfd2).1, (List.cons.inj hfd2).2⟩
    dsimp only
    split
    · split
      · rename_i hfree2
        rw [show (reset_device_pointers s).devices_registry = s.devices_registry from rfl,
          hfree] at hfree2
        exact Option.noConfusion hfree2
      · rename_i a' hfree2
        rw [show (reset_device_pointers s).devices_registry = s.devices_registry from rfl,
          hfree] at hfree2
        obtain rfl : a = a' := Option.some.inj hfree2
        constructor
        · rw [configure_device_pairing_device]
        · rw [configure_device_found]
    · rename_i rec hget2
      rw [show (reset_device_pointers s).devices_registry = s.devices_registry from rfl,
        hget] at hget2
      exact Option.noConfusion hget2

theorem pairingLoop_guarded (now : ℤ) (s : PairingState)
    (hen : s.pairing_enabled = true)
    (htot : s.total_attempts < MAX_TOTAL_TRANSMIT_ATTEMPTS) :
    pairingLoop now s =
      if s.broadcasting_search_finished = false then
        (if s.attempts < MAX_SEARCHING_ATTEMPTS then
          (if s.waiting_for_packet = none ∨ s.last_request_send_timestamp = 0
              ∨ (s.waiting_for_packet ≠ none
                 ∧ now - s.last_request_send_timestamp ≥ SEARCHING_DELAY) then
            broadcast_search_devices_handler now s
          else s)
        else discover_device { s with broadcasting_search_finished := true })
      else
        match s.pairing_device with
        | none => s
        | some device =>
            if s.attempts ≥ MAX_TRANSMIT_ATTEMPTS
                ∨ now - s.last_request_send_timestamp ≥ MAX_PAIRING_DELAY then
              discover_device s
            else if s.waiting_for_packet ≠ none then s
            else
              let t := move_to_next_cmd s
              let t := if t.pairing_cmd = .writeAddress then
                         broadcast_write_address_handler now device t else t
              let t := if t.pairing_cmd = .provideRegisterStructure then
                         send_provide_register_structure_handler now device t else t
              let t := if t.pairing_cmd = .pairingFinished then
                         send_finalize_pairing_handler now device t else t
              t := by
  unfold pairingLoop
  rw [if_neg (by rw [hen]; exact fun hc => Bool.noConfusion hc)]
  have hlt : ¬ (s.total_attempts ≥ MAX_TOTAL_TRANSMIT_ATTEMPTS) := by
    unfold MAX_TOTAL_TRANSMIT_ATTEMPTS at htot ⊢
    omega
  simp only [if_neg hlt]

theorem pairingLoop_highTotal (now : ℤ) (s : PairingState)
    (hen : s.pairing_enabled = true)
    (htot : MAX_TOTAL_TRANSMIT_ATTEMPTS ≤ s.total_attempts) :
    pairingLoop now s = broadcast_search_devices_handler now (disable s) := by
  unfold pairingLoop
  rw [if_neg (by rw [hen]; exact fun hc => Bool.noConfusion hc)]
  have hge : s.total_attempts ≥ MAX_TOTAL_TRANSMIT_ATTEMPTS := htot
  simp only [if_pos hge]
  rw [if_pos (show (disable s).broadcasting_search_finished = false from rfl)]
  rw [if_pos (show (disable s).attempts < MAX_SEARCHING_ATTEMPTS by
    simp [disable, reset_pointers, reset_device_pointers, MAX_SEARCHING_ATTEMPTS])]
  rw [if_pos (Or.inl (show (disable s).waiting_for_packet = none from rfl))]

theorem move_to_next_cmd_empty (s : PairingState) (h : s.finished_cmd = []) :
    move_to_next_cmd s = { s with pairing_cmd := .writeAddress } := by
  unfold move_to_next_cmd
  rw [if_pos (by rw [h]; exact List.not_mem_nil _)]

theorem countSearch_append (frames : List (List Nat)) (f : List Nat) :
    countSearchFrames (frames ++ [f])
      = countSearchFrames frames + (if f = searchFrame then 1 else 0) := by
  unfold countSearchFrames
  rw [List.filter_append]
  simp only [List.length_append]
  congr 1
  by_cases hf : f = searchFrame
  · rw [if_pos hf]
    simp [hf]
  · rw [if_neg hf]
    simp [hf]

theorem pairingLoop_enrollment_send (now : ℤ) (s : PairingState)
    (device : PairingDeviceRecord)
    (hen : s.pairing_enabled = true)
    (htot : s.total_attempts < MAX_TOTAL_TRANSMIT_ATTEMPTS)
    (hf : s.broadcasting_search_finished = true)
    (hdev : s.pairing_device = some device)
    (hdrop : ¬ (s.attempts ≥ MAX_TRANSMIT_ATTEMPTS
        ∨ now - s.last_request_send_timestamp ≥ MAX_PAIRING_DELAY))
    (hw : s.waiting_for_packet = none)
    (hcmd : s.finished_cmd = []) :
    pairingLoop now s
      = broadcast_write_address_handler now device
          { s with pairing_cmd := .writeAddress } := by
  rw [pairingLoop_guarded now s hen htot]
  rw [if_neg (by rw [hf]; exact fun hc => Bool.noConfusion hc)]
  rw [hdev]
  dsimp only
  rw [if_neg hdrop]
  rw [if_neg (by rw [hw]; exact fun hc => hc rfl)]
  rw [move_to_next_cmd_empty s hcmd]
  dsimp only
  rw [if_pos rfl]
  rw [if_neg (fun hc => by
    simp only [broadcast_write_address_handler] at hc
    exact PairingCommand.noConfusion hc)]
  rw [if_neg (fun hc => by
    simp only [broadcast_write_address_handler] at hc
    exact PairingCommand.noConfusion hc)]
  rw [hdev]

/-- The invariant maintained while pairing is driven only by ticks and
discovery replies (no `append_pairing_cmd`): no command acknowledged yet,
never more than five search broadcasts sent, and while pairing is enabled
the two attempt counters agree and - during the search phase - equal the
number of search broadcasts sent so far. -/
def SearchInv (s : PairingState) : Prop :=
  s.finished_cmd = []
  ∧ countSearchFrames s.sent_frames ≤ MAX_SEARCHING_ATTEMPTS
  ∧ (s.pairing_enabled = true →
      s.total_attempts = s.attempts ∧ s.attempts ≤ MAX_SEARCHING_ATTEMPTS
      ∧ (s.broadcasting_search_finished = false →
          countSearchFrames s.sent_frames = s.attempts))

theorem searchInv_tick (now : ℤ) (s : PairingState) (h : SearchInv s) :
    SearchInv (pairingLoop now s) := by
  obtain ⟨hcmd, hcount, henab⟩ := h
  cases hb : s.pairing_enabled with
  | false =>
      have hid : pairingLoop now s = s := by
        unfold pairingLoop
        rw [if_pos hb]
      rw [hid]
      exact ⟨hcmd, hcount, fun hc => absurd hc (by rw [hb]; exact fun x => Bool.noConfusion x)⟩
  | true =>
      obtain ⟨hta, hat5, hcnt⟩ := henab hb
      have hlt : s.total_attempts < MAX_TOTAL_TRANSMIT_ATTEMPTS := by
        unfold MAX_SEARCHING_ATTEMPTS at hat5
        unfold MAX_TOTAL_TRANSMIT_ATTEMPTS
        omega
      rw [pairingLoop_guarded now s hb hlt]
      cases hf : s.broadcasting_search_finished with
      | false =>
          rw [if_pos rfl]
          by_cases hatt : s.attempts < MAX_SEARCHING_ATTEMPTS
          · rw [if_pos hatt]
            by_cases hcond : s.waiting_for_packet = none
                ∨ s.last_request_send_timestamp = 0
                ∨ (s.waiting_for_packet ≠ none
                   ∧ now - s.last_request_send_timestamp ≥ SEARCHING_DELAY)
            · rw [if_pos hcond]
              have hstep : countSearchFrames (s.sent_frames ++ [searchFrame])
                  = countSearchFrames s.sent_frames + 1 := by
                rw [countSearch_append]
                rw [if_pos rfl]
              refine ⟨hcmd, ?_, fun _ => ⟨?_, ?_, fun _ => ?_⟩⟩
              · show countSearchFrames (s.sent_frames ++ [searchFrame])
                    ≤ MAX_SEARCHING_ATTEMPTS
                rw [hstep, hcnt hf]
                exact hatt
              · show s.total_attempts + 1 = s.attempts + 1
                omega
              · show s.attempts + 1 ≤ MAX_SEARCHING_ATTEMPTS
                exact hatt
              · show countSearchFrames (s.sent_frames ++ [searchFrame]) = s.attempts + 1
                rw [hstep, hcnt hf]
            · rw [if_neg hcond]
              exact ⟨hcmd, hcount, fun _ => ⟨hta, hat5, fun _ => hcnt hf⟩⟩
          · rw [if_neg hatt]
            have hd := discover_device_spec
              { s with broadcasting_search_finished := true }
            refine ⟨hd.2.2.2.1, ?_, fun he => ⟨?_, ?_, fun hff => ?_⟩⟩
            · rw [hd.2.2.1]
              exact hcount
            · rw [hd.1, hd.2.1]
            · rw [hd.2.1]
              unfold MAX_SEARCHING_ATTEMPTS
              omega
            · have h6 := (hd.2.2.2.2.2.1 he).2
              rw [hff] at h6
              exact Bool.noConfusion h6
      | true =>
          rw [if_neg (fun hc => Bool.noConfusion hc)]
          cases hdev : s.pairing_device with
          | none =>
              exact ⟨hcmd, hcount, fun _ => ⟨hta, hat5,
                fun hff => absurd hff (by rw [hf]; exact fun x => Bool.noConfusion x)⟩⟩
          | some device =>
              dsimp only
              by_cases hdrop : s.attempts ≥ MAX_TRANSMIT_ATTEMPTS
                  ∨ now - s.last_request_send_timestamp ≥ MAX_PAIRING_DELAY
              · rw [if_pos hdrop]
                have hd := discover_device_spec s
                refine ⟨hd.2.2.2.1, ?_, fun he => ⟨?_, ?_, fun hff => ?_⟩⟩
                · rw [hd.2.2.1]
                  exact hcount
                · rw [hd.1, hd.2.1]
                · rw [hd.2.1]
                  unfold MAX_SEARCHING_ATTEMPTS
                  omega
                · have h6 := (hd.2.2.2.2.2.1 he).2
                  rw [hff, hf] at h6
                  exact Bool.noConfusion h6
              · rw [if_neg hdrop]
                by_cases hw : s.waiting_for_packet ≠ none
                · rw [if_pos hw]
                  exact ⟨hcmd, hcount, fun _ => ⟨hta, hat5,
                    fun hff => absurd hff (by rw [hf]; exact fun x => Bool.noConfusion x)⟩⟩
                · rw [if_neg hw]
                  have hwn : s.waiting_for_packet = none := by
                    by_contra hc
                    exact hw hc
                  rw [move_to_next_cmd_empty s hcmd]
                  rw [if_pos rfl]
                  rw [if_neg (fun hc => by
                    simp only [broadcast_write_address_handler] at hc
                    exact PairingCommand.noConfusion hc)]
                  rw [if_neg (fun hc => by
                    simp only [broadcast_write_address_handler] at hc
                    exact PairingCommand.noConfusion hc)]
                  have hattlt : s.attempts < MAX_TRANSMIT_ATTEMPTS := by
                    by_contra hc
                    exact hdrop (Or.inl (by omega))
                  refine ⟨?_, ?_, fun _ => ⟨?_, ?_, fun hff => ?_⟩⟩
                  · exact hcmd
                  · show countSearchFrames (s.sent_frames
                        ++ [[PROTOCOL_V1, PACKET_DISCOVER,
                             PairingCommand.writeAddress.value, device.address,
                             device.serial_number.length] ++ device.serial_number])
                      ≤ MAX_SEARCHING_ATTEMPTS
                    rw [countSearch_append, if_neg (by
                      intro hc
                      simp [searchFrame, PairingCommand.value, PROTOCOL_V1,
                        PACKET_DISCOVER] at hc)]
                    simpa using hcount
                  · show s.total_attempts + 1 = s.attempts + 1
                    omega
                  · show s.attempts + 1 ≤ MAX_SEARCHING_ATTEMPTS
                    unfold MAX_SEARCHING_ATTEMPTS
                    unfold MAX_TRANSMIT_ATTEMPTS at hattlt
                    omega
                  · simp only [broadcast_write_address_handler, hf] at hff
                    exact Bool.noConfusion hff

theorem searchInv_deviceReply (s : PairingState) (d : PairingDeviceRecord)
    (h : SearchInv s) : SearchInv (append_device s d) := by
  obtain ⟨hcmd, hcount, henab⟩ := h
  unfold append_device
  dsimp only
  split
  · exact ⟨hcmd, hcount, fun he => henab he⟩
  · exact ⟨hcmd, hcount, fun he => henab he⟩

theorem searchInv_run (events : List PairingEvent) :
    ∀ s : PairingState,
      (∀ e ∈ events, (∃ now, e = .tick now) ∨ (∃ d, e = .deviceReply d)) →
      SearchInv s → SearchInv (pairingRun s events) := by
  induction events with
  | nil => exact fun s _ h => h
  | cons e rest ih =>
      intro s hev h
      have hstep : SearchInv (pairingStep s e) := by
        rcases hev e (List.mem_cons_self e rest) with ⟨now, rfl⟩ | ⟨d, rfl⟩
        · exact searchInv_tick now s h
        · exact searchInv_deviceReply s d h
      exact ih (pairingStep s e)
        (fun e' he' => hev e' (List.mem_cons_of_mem e he')) hstep

theorem searchInv_enable (devices : List DeviceRecord)
    (registers : List RegistryRegisterRecord) :
    SearchInv (enableState devices registers) := by
  refine ⟨rfl, ?_, fun _ => ⟨rfl, ?_, fun _ => rfl⟩⟩
  · show countSearchFrames [] ≤ MAX_SEARCHING_ATTEMPTS
    decide
  · show 0 ≤ MAX_SEARCHING_ATTEMPTS
    decide

theorem move_to_next_cmd_device (s : PairingState) :
    (move_to_next_cmd s).pairing_device = s.pairing_device := by
  unfold move_to_next_cmd
  split
  · rfl
  · split
    · unfold move_to_next_register_for_init
      dsimp only
      split
      · split
        · rfl
        · split
          · rfl
          · split
            · rfl
            · rfl
      · rfl
    · split
      · rfl
      · rfl

theorem pairingLoop_keep_device (now : ℤ) (s : PairingState)
    (d : PairingDeviceRecord)
    (hen : s.pairing_enabled = true)
    (htot : s.total_attempts < MAX_TOTAL_TRANSMIT_ATTEMPTS)
    (hf : s.broadcasting_search_finished = true)
    (hdev : s.pairing_device = some d)
    (hdrop : ¬ (s.attempts ≥ MAX_TRANSMIT_ATTEMPTS
        ∨ now - s.last_request_send_timestamp ≥ MAX_PAIRING_DELAY)) :
    (pairingLoop now s).pairing_device = some d := by
  rw [pairingLoop_guarded now s hen htot]
  rw [if_neg (by rw [hf]; exact fun hc => Bool.noConfusion hc)]
  rw [hdev]
  dsimp only
  rw [if_neg hdrop]
  by_cases hw : s.waiting_for_packet ≠ none
  · rw [if_pos hw]
    exact hdev
  · rw [if_neg hw]
    have h1 : (move_to_next_cmd s).pairing_device = s.pairing_device :=
      move_to_next_cmd_device s
    set t1 := move_to_next_cmd s with ht1
    set t2 := if t1.pairing_cmd = PairingCommand.writeAddress then
        broadcast_write_address_handler now d t1 else t1 with ht2
    have h2 : t2.pairing_device = t1.pairing_device := by
      rw [ht2]
      split
      · rfl
      · rfl
    set t3 := if t2.pairing_cmd = PairingCommand.provideRegisterStructure then
        send_provide_register_structure_handler now d t2 else t2 with ht3
    have h3 : t3.pairing_device = t2.pairing_device := by
      rw [ht3]
      split
      · unfold send_provide_register_structure_handler
        split
        · rfl
        · rfl
      · rfl
    set t4 := if t3.pairing_cmd = PairingCommand.pairingFinished then
        send_finalize_pairing_handler now d t3 else t3 with ht4
    have h4 : t4.pairing_device = t3.pairing_device := by
      rw [ht4]
      split
      · rfl
      · rfl
    rw [h4, h3, h2, h1, hdev]

/-- Claim C2, counterexample: the total-attempts counter IS reset while
pairing stays enabled.  Driven from `enable()` by one discovery reply and
search ticks two seconds apart, the counter reaches 5 after the five search
broadcasts; the next tick calls `discover_device`, which pops the found
device and zeroes the counter with pairing still enabled; the tick after
that sends a sixth frame with the counter back at 1.  Iterating this cycle
outruns any fixed frame budget, so pairing is NOT limited to
`MAX_TOTAL_TRANSMIT_ATTEMPTS` frames between enable and disable. -/
theorem claim_C2_counterexample :
    c2Run1.total_attempts = 5
    ∧ c2Run2.total_attempts = 0
    ∧ c2Run2.pairing_enabled = true
    ∧ c2Run3.sent_frames.length = 6
    ∧ c2Run3.total_attempts = 1 := by
  decide

/-- Claim C2 (amended): the guard half of the claim holds - a `loop()` tick
that finds `total_attempts` at or above `MAX_TOTAL_TRANSMIT_ATTEMPTS = 100`
disables pairing (though the same tick still broadcasts one further SEARCH
frame from the freshly reset state); but the counter is zeroed by every
`discover_device` call, so it counts frames per enrollment phase, not since
enable. -/
theorem claim_C2_total_attempts_guard :
    (∀ (now : ℤ) (s : PairingState),
        s.pairing_enabled = true →
        MAX_TOTAL_TRANSMIT_ATTEMPTS ≤ s.total_attempts →
        (pairingLoop now s).pairing_enabled = false
        ∧ (pairingLoop now s).sent_frames = s.sent_frames ++ [searchFrame])
    ∧ (∀ s : PairingState,
        (discover_device s).total_attempts = 0
        ∧ (discover_device s).attempts = 0) := by
  constructor
  · intro now s hen htot
    rw [pairingLoop_highTotal now s hen htot]
    exact ⟨rfl, rfl⟩
  · intro s
    exact ⟨(discover_device_spec s).1, (discover_device_spec s).2.1⟩

theorem claim_C2_total_attempts_guard_witness :
    ((pairingLoop 0 c2CapState).pairing_enabled = false
      ∧ (pairingLoop 0 c2CapState).sent_frames
          = c2CapState.sent_frames ++ [searchFrame])
    ∧ ((discover_device c2CapState).total_attempts = 0
      ∧ (discover_device c2CapState).attempts = 0) :=
  ⟨claim_C2_total_attempts_guard.1 0 c2CapState rfl (by decide),
   claim_C2_total_attempts_guard.2 c2CapState⟩

/-- Claim C7: during per-device enrollment, a tick that finds the attempts
counter at `MAX_TRANSMIT_ATTEMPTS = 5` or at least `MAX_PAIRING_DELAY = 5`
seconds since the last request runs exactly `discover_device`; with no
found device left, `discover_device` clears the pairing device and disables
pairing; with a next found device (here: unknown to the registry, a free
address available) it pops that device as the new pairing device; and a
tick inside both budgets keeps the current pairing device. -/
theorem claim_C7_device_drop :
    (∀ (now : ℤ) (s : PairingState) (device : PairingDeviceRecord),
        s.pairing_enabled = true →
        s.total_attempts < MAX_TOTAL_TRANSMIT_ATTEMPTS →
        s.broadcasting_search_finished = true →
        s.pairing_device = some device →
        (s.attempts ≥ MAX_TRANSMIT_ATTEMPTS
          ∨ now - s.last_request_send_timestamp ≥ MAX_PAIRING_DELAY) →
        pairingLoop now s = discover_device s)
    ∧ (∀ s : PairingState, s.found_devices = [] →
        (discover_device s).pairing_device = none
        ∧ (discover_device s).pairing_enabled = false)
    ∧ (∀ (s : PairingState) (d : PairingDeviceRecord)
          (rest : List PairingDeviceRecord) (a : Nat),
        s.found_devices = d :: rest →
        get_by_id s.devices_registry d.id = none →
        find_free_address s.devices_registry d.client_id = some a →
        (discover_device s).pairing_device = some { d with address := a }
        ∧ (discover_device s).found_devices = rest)
    ∧ (∀ (now : ℤ) (s : PairingState) (d : PairingDeviceRecord),
        s.pairing_enabled = true →
        s.total_attempts < MAX_TOTAL_TRANSMIT_ATTEMPTS →
        s.broadcasting_search_finished = true →
        s.pairing_device = some d →
        ¬ (s.attempts ≥ MAX_TRANSMIT_ATTEMPTS
          ∨ now - s.last_request_send_timestamp ≥ MAX_PAIRING_DELAY) →
        (pairingLoop now s).pairing_device = some d) := by
  refine ⟨?_, ?_, ?_, ?_⟩
  · intro now s device hen htot hf hdev hdrop
    rw [pairingLoop_guarded now s hen htot]
    rw [if_neg (by rw [hf]; exact fun hc => Bool.noConfusion hc)]
    rw [hdev]
    dsimp only
    rw [if_pos hdrop]
  · intro s hfd
    rw [discover_device, hfd]
    rw [discoverFuel]
    split
    · exact ⟨rfl, rfl⟩
    · rename_i d rest hfd2
      rw [show (reset_device_pointers s).found_devices = s.found_devices from rfl,
        hfd] at hfd2
      exact List.noConfusion hfd2
  · intro s d rest a hfd hget hfree
    exact discover_device_pops_head s d rest a hfd hget hfree
  · intro now s d hen htot hf hdev hdrop
    exact pairingLoop_keep_device now s d hen htot hf hdev hdrop

theorem claim_C7_device_drop_witness :
    pairingLoop 0 c7DropState = discover_device c7DropState
    ∧ ((discover_device (enableState [] [])).pairing_device = none
      ∧ (discover_device (enableState [] [])).pairing_enabled = false)
    ∧ ((discover_device c7DropState).pairing_device
          = some { sampleDevice with address := 1 }
      ∧ (discover_device c7DropState).found_devices = [])
    ∧ (pairingLoop 2 c7KeepState).pairing_device = some sampleDevice :=
  ⟨claim_C7_device_drop.1 0 c7DropState sampleDevice rfl (by decide) rfl rfl
      (Or.inl (by decide)),
   claim_C7_device_drop.2.1 (enableState [] []) rfl,
   claim_C7_device_drop.2.2.1 c7DropState sampleDevice [] 1 rfl rfl (by decide),
   claim_C7_device_drop.2.2.2 2 c7KeepState sampleDevice rfl (by decide) rfl rfl
      (by decide)⟩

/-- Claim C8: the search schedule.  A tick that is still awaiting a reply
to a broadcast sent less than `SEARCHING_DELAY = 2` seconds ago leaves the
state unchanged (so consecutive broadcasts while awaiting a reply are at
least 2 seconds apart); the first tick that finds the attempts counter at
`MAX_SEARCHING_ATTEMPTS = 5` ends the search phase and runs
`discover_device`; and every run from `enable()` driven only by ticks and
discovery replies records at most 5 SEARCH broadcasts. -/
theorem claim_C8_search_schedule :
    (∀ (now : ℤ) (s : PairingState),
        s.pairing_enabled = true →
        s.total_attempts < MAX_TOTAL_TRANSMIT_ATTEMPTS →
        s.broadcasting_search_finished = false →
        s.attempts < MAX_SEARCHING_ATTEMPTS →
        s.waiting_for_packet ≠ none →
        s.last_request_send_timestamp ≠ 0 →
        now - s.last_request_send_timestamp < SEARCHING_DELAY →
        pairingLoop now s = s)
    ∧ (∀ (now : ℤ) (s : PairingState),
        s.pairing_enabled = true →
        s.total_attempts < MAX_TOTAL_TRANSMIT_ATTEMPTS →
        s.broadcasting_search_finished = false →
        MAX_SEARCHING_ATTEMPTS ≤ s.attempts →
        pairingLoop now s
          = discover_device { s with broadcasting_search_finished := true })
    ∧ (∀ (devices : List DeviceRecord)
          (registers : List RegistryRegisterRecord)
          (events : List PairingEvent),
        (∀ e ∈ events, (∃ now, e = .tick now) ∨ (∃ d, e = .deviceReply d)) →
        countSearchFrames
            (pairingRun (enableState devices registers) events).sent_frames
          ≤ MAX_SEARCHING_ATTEMPTS) := by
  refine ⟨?_, ?_, ?_⟩
  · intro now s hen htot hf hat hw hts hdelay
    rw [pairingLoop_guarded now s hen htot]
    rw [if_pos hf, if_pos hat]
    rw [if_neg ?_]
    intro hc
    rcases hc with hc | hc | hc
    · exact hw hc
    · exact hts hc
    · exact absurd hc.2 (by omega)
  · intro now s hen htot hf hat
    rw [pairingLoop_guarded now s hen htot]
    rw [if_pos hf]
    rw [if_neg (by omega)]
  · intro devices registers events hev
    exact ((searchInv_run events (enableState devices registers) hev
      (searchInv_enable devices registers)).2.1)

theorem claim_C8_search_schedule_witness :
    pairingLoop 2 c8WaitState = c8WaitState
    ∧ pairingLoop 0 c8DoneState
        = discover_device { c8DoneState with broadcasting_search_finished := true }
    ∧ countSearchFrames
        (pairingRun (enableState [] []) [PairingEvent.tick 1]).sent_frames
      ≤ MAX_SEARCHING_ATTEMPTS :=
  ⟨claim_C8_search_schedule.1 2 c8WaitState rfl (by decide) rfl (by decide)
      (by decide) (by decide) (by decide),
   claim_C8_search_schedule.2.1 0 c8DoneState rfl (by decide) rfl (by decide),
   claim_C8_search_schedule.2.2 [] [] [PairingEvent.tick 1]
      (fun e he => Or.inl ⟨1, List.mem_singleton.mp he⟩)⟩

end FbBus
